import Mathlib

/-!
# Order fulfilment workflow of the order service

A shallow embedding of `createOrderHandler` (order-service/order_service.go) together with
the two product-service handlers it talks to (`getProductHandler`, `updateStockHandler`,
product-service/product_service.go) and a transactional model of the orders store.

* Go `int` is modelled by `Int`; the only integer operation of the handler that can leave
  the 64-bit range is the unary minus of `-item.Quantity`, modelled by `negInt`.
* Go `float64` is modelled by an arbitrary type `α` carrying the operations the handler
  uses (`0`, `+`, `*`, conversion from `int`); every theorem holds for every such
  arithmetic. `F64` is float64 itself (round to nearest, ties to even, with signed zeros,
  infinities and NaN); the concrete inputs use `F64` where the amount matters and `ℚ`
  elsewhere.
* The outcome of every call to a collaborator that the handler tests with `err != nil`
  is decided by an `Env`: which calls fail and with what error text.
* Every collaborator call of a run is appended to `World.trace`.
* `jsonReader`, the reader `updateProductStock` builds its request body from, is embedded
  with Go's value-receiver semantics; the product service decodes the first JSON value of
  the body it receives, which is what `updateProductStock` hands to `updateStockHandler`.
* `rateLimitMiddleware` of the gateway (api-getway/api_getway.go) is embedded in the
  namespace `ApiGateway`, as a function of the limiter's two package variables.
-/

namespace OrderService

/-! ## Data model -/

/-- Go's wrap-around of a mathematical integer into the range of a 64-bit `int`. -/
def wrapInt64 (x : Int) : Int := (x + 2 ^ 63) % 2 ^ 64 - 2 ^ 63

/-- Go's unary minus on `int` (`-item.Quantity`). -/
def negInt (x : Int) : Int := wrapInt64 (-x)

/-- Values a Go `int` can hold. -/
def InInt64 (x : Int) : Prop := -2 ^ 63 ≤ x ∧ x < 2 ^ 63

instance (x : Int) : Decidable (InInt64 x) := by unfold InInt64; infer_instance

/-- The `Product` struct of the order service: the three fields it decodes from the
product service's answer, which are also the three columns of a `products` row that
matter here. -/
structure Product (α : Type) where
  ID : Int
  Price : α
  StockQuantity : Int
  deriving DecidableEq, Repr

/-- The `OrderItem` struct; `ID` is left at its zero value by `createOrderHandler`. -/
structure OrderItem (α : Type) where
  ID : Int
  ProductID : Int
  Quantity : Int
  Price : α
  deriving DecidableEq, Repr

/-- One element of `CreateOrderRequest.Items`. -/
structure CartLine where
  ProductID : Int
  Quantity : Int
  deriving DecidableEq, Repr

/-- The `CreateOrderRequest` struct. -/
structure CreateOrderRequest where
  UserID : Int
  Items : List CartLine
  deriving DecidableEq, Repr

/-- A row of the `orders` relation, as written by the header insert. -/
structure OrderRow (α : Type) where
  id : Int
  user_id : Int
  status : String
  total_amount : α
  deriving DecidableEq, Repr

/-- A row of the `order_items` relation, as written by the item insert. -/
structure OrderItemRow (α : Type) where
  order_id : Int
  product_id : Int
  quantity : Int
  price : α
  deriving DecidableEq, Repr

/-- The orders store: the rows of its two relations. -/
structure OrdersDB (α : Type) where
  orders : List (OrderRow α)
  order_items : List (OrderItemRow α)
  deriving DecidableEq, Repr

/-- What the handler writes to the `http.ResponseWriter`. -/
inductive Response (α : Type) where
  /-- The call `http.Error(w, msg, code)`. -/
  | error (code : Nat) (msg : String)
  /-- The call `w.WriteHeader(http.StatusCreated)` followed by the JSON body with keys
  `message`, `order_id` and `total_amount`. -/
  | created (message : String) (order_id : Int) (total_amount : α)
  deriving DecidableEq, Repr

/-- The HTTP status code of a response. -/
def Response.status {α : Type} : Response α → Nat
  | .error code _ => code
  | .created _ _ _ => 201

/-- A call made by the handler to one of its collaborators, with its result. -/
inductive Event (α : Type) where
  | getProduct (productID : Int) (result : Option (Product α))
  | begin (ok : Bool)
  | insertOrder (userID : Int) (status : String) (total : α) (result : Option Int)
  | insertItem (orderID productID quantity : Int) (price : α) (ok : Bool)
  | updateStock (productID quantity : Int) (ok : Bool)
  | commit (ok : Bool)
  | rollback
  deriving DecidableEq, Repr

/-- The two stores and the log of collaborator calls. -/
structure World (α : Type) where
  /-- Committed content of the orders store. -/
  orders : OrdersDB α
  /-- The `products` relation of the product service. -/
  products : List (Product α)
  /-- Collaborator calls made so far, oldest first. -/
  trace : List (Event α)
  deriving DecidableEq, Repr

/-- Behaviour of the collaborators that the code does not determine: which calls fail,
the text of their errors, and the id the orders store generates. The index of
`getFails`, `insertItemErr` and `updateStockFails` is the zero-based position of the
cart line the call is made for. -/
structure Env where
  /-- The snapshot read fails in transport or its body does not decode. -/
  getFails : Nat → Bool
  /-- Error of `db.Begin()`, if any. -/
  beginErr : Option String
  /-- Error of the header insert, if any. -/
  insertOrderErr : Option String
  /-- The id returned by `RETURNING id`. -/
  newOrderID : Int
  /-- Error of the insert of an item, if any. -/
  insertItemErr : Nat → Option String
  /-- The stock-adjust call fails in transport or the product service answers 500. -/
  updateStockFails : Nat → Bool
  /-- Error of `tx.Commit()`, if any. -/
  commitErr : Option String

/-- The environment in which no collaborator fails. -/
def Env.ok (newOrderID : Int) : Env :=
  { getFails := fun _ => false, beginErr := none, insertOrderErr := none,
    newOrderID := newOrderID, insertItemErr := fun _ => none,
    updateStockFails := fun _ => false, commitErr := none }

section Handlers

variable {α : Type}

/-- Append a collaborator call to the log. -/
def World.log (w : World α) (e : Event α) : World α :=
  { w with trace := w.trace ++ [e] }

/-! ## Product service -/

/-- The handler `getProductHandler` of the product service: the row selected by
`WHERE id = $1`, or nothing (404) when there is none. -/
def getProductHandler (products : List (Product α)) (productID : Int) : Option (Product α) :=
  products.find? (fun p => p.ID == productID)

/-- The handler `updateStockHandler` of the product service:
`UPDATE products SET stock_quantity = stock_quantity + $1 WHERE id = $2`, answering 404
(`false`) when `rowsAffected == 0` and 200 (`true`) otherwise. -/
def updateStockHandler (products : List (Product α)) (productID quantity : Int) :
    Bool × List (Product α) :=
  let rowsAffected := products.countP (fun p => p.ID == productID)
  if rowsAffected == 0 then (false, products)
  else (true, products.map (fun p =>
    if p.ID == productID then { p with StockQuantity := p.StockQuantity + quantity } else p))

/-! ## Order service -/

/-- The function `getProductFromService`: `none` stands for a non-nil error (transport
failure, status other than 200, or a body that does not decode). -/
def getProductFromService (env : Env) (i : Nat) (productID : Int) (w : World α) :
    Option (Product α) × World α :=
  let result := if env.getFails i then none else getProductHandler w.products productID
  (result, w.log (.getProduct productID result))

/-- The function `updateProductStock`: `true` stands for a nil error. An injected
failure leaves the product store untouched. -/
def updateProductStock (env : Env) (i : Nat) (productID quantity : Int) (w : World α) :
    Bool × World α :=
  if env.updateStockFails i then (false, w.log (.updateStock productID quantity false))
  else
    let r := updateStockHandler w.products productID quantity
    (r.1, { w with products := r.2, trace := w.trace ++ [.updateStock productID quantity r.1] })

variable [Zero α] [Add α] [Mul α] [IntCast α]

/-- The first loop of `createOrderHandler` ("Validate products and calculate total"),
from cart line `i` on, with the current `totalAmount` and `orderItems`. -/
def validateItems (env : Env) :
    Nat → List CartLine → α → List (OrderItem α) → World α →
      Except (Response α) (α × List (OrderItem α)) × World α
  | _, [], totalAmount, orderItems, w => (.ok (totalAmount, orderItems), w)
  | i, item :: rest, totalAmount, orderItems, w =>
    match getProductFromService env i item.ProductID w with
    | (none, w1) =>
      (.error (.error 400 ("Product " ++ toString item.ProductID ++ " not found")), w1)
    | (some product, w1) =>
      if product.StockQuantity < item.Quantity then
        (.error (.error 400 ("Insufficient stock for product " ++ toString item.ProductID)),
          w1)
      else
        let itemTotal := product.Price * ((item.Quantity : Int) : α)
        validateItems env (i + 1) rest (totalAmount + itemTotal)
          (orderItems ++ [{ ID := 0, ProductID := item.ProductID,
                            Quantity := item.Quantity, Price := product.Price }]) w1

/-- The second loop of `createOrderHandler` ("Insert order items"), from item `i` on;
`tx` is the content of the orders store as the open transaction sees it. -/
def insertItems (env : Env) (orderID : Int) :
    Nat → List (OrderItem α) → OrdersDB α → World α →
      Except (Response α) (OrdersDB α) × World α
  | _, [], tx, w => (.ok tx, w)
  | i, item :: rest, tx, w =>
    match env.insertItemErr i with
    | some e =>
      (.error (.error 500 e),
        w.log (.insertItem orderID item.ProductID item.Quantity item.Price false))
    | none =>
      let w1 := w.log (.insertItem orderID item.ProductID item.Quantity item.Price true)
      let tx1 : OrdersDB α :=
        { tx with order_items := tx.order_items ++
            [{ order_id := orderID, product_id := item.ProductID,
               quantity := item.Quantity, price := item.Price }] }
      match updateProductStock env i item.ProductID (negInt item.Quantity) w1 with
      | (false, w2) => (.error (.error 500 "Failed to update product stock"), w2)
      | (true, w2) => insertItems env orderID (i + 1) rest tx1 w2

/-- The part of `createOrderHandler` from `db.Begin()` to the end ("Create order in
transaction"). The deferred `tx.Rollback()` runs on every path after a successful
`Begin`; it discards what the transaction wrote unless the commit succeeded. A failed
commit leaves the store as it was. -/
def persistOrder (env : Env) (req : CreateOrderRequest) (totalAmount : α)
    (orderItems : List (OrderItem α)) (w : World α) : Response α × World α :=
  match env.beginErr with
  | some e => (.error 500 e, w.log (.begin false))
  | none =>
    let w1 := w.log (.begin true)
    let tx := w1.orders
    match env.insertOrderErr with
    | some e =>
      (.error 500 e,
        (w1.log (.insertOrder req.UserID "pending" totalAmount none)).log .rollback)
    | none =>
      let orderID := env.newOrderID
      let w2 := w1.log (.insertOrder req.UserID "pending" totalAmount (some orderID))
      let tx1 : OrdersDB α :=
        { tx with orders := tx.orders ++
            [{ id := orderID, user_id := req.UserID, status := "pending",
               total_amount := totalAmount }] }
      match insertItems env orderID 0 orderItems tx1 w2 with
      | (.error resp, w3) => (resp, w3.log .rollback)
      | (.ok tx2, w3) =>
        match env.commitErr with
        | some e => (.error 500 e, (w3.log (.commit false)).log .rollback)
        | none =>
          (.created "Order created successfully" orderID totalAmount,
            ({ w3 with orders := tx2 }.log (.commit true)).log .rollback)

/-- The handler `createOrderHandler`. The request body either fails to decode (with the
decoder's error text) or decodes to a `CreateOrderRequest`. -/
def createOrderHandler (env : Env) (body : Except String CreateOrderRequest)
    (w : World α) : Response α × World α :=
  match body with
  | .error e => (.error 400 e, w)
  | .ok req =>
    match validateItems env 0 req.Items 0 [] w with
    | (.error resp, w1) => (resp, w1)
    | (.ok (totalAmount, orderItems), w1) => persistOrder env req totalAmount orderItems w1

/-- Two runs of `createOrderHandler` on decoded requests under the schedule in which
both validation loops complete before either run reaches `db.Begin()`: run A validates,
run B validates, run A runs its transaction part, run B runs its transaction part. A run
whose validation fails has returned and takes no further step. -/
def bothValidateFirst (envA envB : Env) (reqA reqB : CreateOrderRequest) (w : World α) :
    Response α × Response α × World α :=
  match validateItems envA 0 reqA.Items 0 [] w with
  | (.error respA, w1) =>
    match validateItems envB 0 reqB.Items 0 [] w1 with
    | (.error respB, w2) => (respA, respB, w2)
    | (.ok (totalB, itemsB), w2) =>
      let rB := persistOrder envB reqB totalB itemsB w2
      (respA, rB.1, rB.2)
  | (.ok (totalA, itemsA), w1) =>
    match validateItems envB 0 reqB.Items 0 [] w1 with
    | (.error respB, w2) =>
      let rA := persistOrder envA reqA totalA itemsA w2
      (rA.1, respB, rA.2)
    | (.ok (totalB, itemsB), w2) =>
      let rA := persistOrder envA reqA totalA itemsA w2
      let rB := persistOrder envB reqB totalB itemsB rA.2
      (rA.1, rB.1, rB.2)

/-- Two runs of `createOrderHandler` one after the other. -/
def oneAfterTheOther (envA envB : Env) (reqA reqB : CreateOrderRequest) (w : World α) :
    Response α × Response α × World α :=
  let rA := createOrderHandler envA (.ok reqA) w
  let rB := createOrderHandler envB (.ok reqB) rA.2
  (rA.1, rB.1, rB.2)

end Handlers

/-! ## Notions used to state the properties -/

section Notions

variable {α : Type}

/-- The response reporting `ProductUnavailable` for a product. -/
def productUnavailable (productID : Int) : Response α :=
  .error 400 ("Product " ++ toString productID ++ " not found")

/-- The response reporting `InsufficientStock` for a product. -/
def insufficientStock (productID : Int) : Response α :=
  .error 400 ("Insufficient stock for product " ++ toString productID)

/-- The response reporting `StockUpdateFailed`. -/
def stockUpdateFailed : Response α :=
  .error 500 "Failed to update product stock"

/-- The response reporting `PersistenceError` with the store's error text. -/
def persistenceError (e : String) : Response α :=
  .error 500 e

/-- The cart line at position `il.1` passes validation with snapshot `p`: the snapshot
read answers `p` and the stock of `p` covers the requested quantity. -/
def LineValid (env : Env) (products : List (Product α)) (il : Nat × CartLine)
    (p : Product α) : Prop :=
  env.getFails il.1 = false ∧ getProductHandler products il.2.ProductID = some p ∧
    il.2.Quantity ≤ p.StockQuantity

/-- The snapshot read for the cart line at position `il.1` answers not-found or fails. -/
def LineUnknown (env : Env) (products : List (Product α)) (il : Nat × CartLine) : Prop :=
  env.getFails il.1 = true ∨ getProductHandler products il.2.ProductID = none

/-- The snapshot read for the cart line at position `il.1` answers `p`, whose stock is
less than the requested quantity. -/
def LineShort (env : Env) (products : List (Product α)) (il : Nat × CartLine)
    (p : Product α) : Prop :=
  env.getFails il.1 = false ∧ getProductHandler products il.2.ProductID = some p ∧
    p.StockQuantity < il.2.Quantity

/-- All lines of the cart pass validation, line `k` with snapshot `snaps[k]`. -/
def CartValid (env : Env) (products : List (Product α)) (items : List CartLine)
    (snaps : List (Product α)) : Prop :=
  List.Forall₂ (LineValid env products) items.enum snaps

/-- Every call the transaction part makes for a cart of `n` lines succeeds: begin, the
header insert, the insert and the stock-adjust call of every item, and commit. -/
def WritesSucceed (env : Env) (n : Nat) : Prop :=
  env.beginErr = none ∧ env.insertOrderErr = none ∧
    (∀ k, k < n → env.insertItemErr k = none ∧ env.updateStockFails k = false) ∧
    env.commitErr = none

/-- The stock-adjust calls recorded in a log, in order: product and delta. -/
def stockCalls : List (Event α) → List (Int × Int)
  | [] => []
  | .updateStock productID quantity _ :: rest => (productID, quantity) :: stockCalls rest
  | _ :: rest => stockCalls rest

/-- The collaborator calls a run added to the log of the world it started from. -/
def newEvents (before after : World α) : List (Event α) :=
  after.trace.drop before.trace.length

/-- The decrement `updateStockHandler` applies for each of the given lines, in order. -/
def applyDecrements (products : List (Product α)) (lines : List CartLine) :
    List (Product α) :=
  lines.foldl (fun ps line => (updateStockHandler ps line.ProductID (negInt line.Quantity)).2)
    products

/-- The stock the product store holds for a product (`none` when it has no such row). -/
def stockOf (products : List (Product α)) (productID : Int) : Option Int :=
  (getProductHandler products productID).map (fun p => p.StockQuantity)

/-- The sum of the deltas that the stock-adjust calls for the given lines pass for one
product. -/
def deltaFor (productID : Int) (lines : List CartLine) : Int :=
  ((lines.filter (fun l => l.ProductID == productID)).map (fun l => negInt l.Quantity)).sum

/-- A successful commit. -/
def Event.isCommit : Event α → Bool
  | .commit true => true
  | _ => false

/-- A call to the orders store (begin, insert, commit) or a stock-adjust call that
failed. -/
def Event.isFailedWrite : Event α → Bool
  | .begin false => true
  | .insertOrder _ _ _ none => true
  | .insertItem _ _ _ _ false => true
  | .updateStock _ _ false => true
  | .commit false => true
  | _ => false

/-- The product-store effect of the decrements of a list of priced items. -/
def applyItemDecrements (products : List (Product α)) (its : List (OrderItem α)) :
    List (Product α) :=
  its.foldl (fun ps it => (updateStockHandler ps it.ProductID (negInt it.Quantity)).2) products

/-- The log entries of an item loop in which every call succeeds. -/
def itemEvents (orderID : Int) (its : List (OrderItem α)) : List (Event α) :=
  its.flatMap (fun it =>
    [Event.insertItem orderID it.ProductID it.Quantity it.Price true,
     Event.updateStock it.ProductID (negInt it.Quantity) true])

/-- The rows an item loop inserts. -/
def rowsOf (orderID : Int) (its : List (OrderItem α)) : List (OrderItemRow α) :=
  its.map (fun it => { order_id := orderID, product_id := it.ProductID,
                       quantity := it.Quantity, price := it.Price })

/-- The log entries up to and including the header insert of a run whose `Begin` and
header insert succeed. -/
def headerEvents (env : Env) (req : CreateOrderRequest) (total : α) : List (Event α) :=
  [.begin true, .insertOrder req.UserID "pending" total (some env.newOrderID)]

/-- The header row the handler inserts. -/
def headerRow (env : Env) (req : CreateOrderRequest) (total : α) : OrderRow α :=
  { id := env.newOrderID, user_id := req.UserID, status := "pending", total_amount := total }

/-- The log entries of a validation loop in which every line passes. -/
def snapshotEvents (items : List CartLine) (snaps : List (Product α)) : List (Event α) :=
  List.zipWith (fun (line : CartLine) (p : Product α) =>
    Event.getProduct line.ProductID (some p)) items snaps

variable [Zero α] [Add α] [Mul α] [IntCast α]

/-- The sum, in cart order and starting from `start`, of snapshot price times quantity. -/
def sumFrom (start : α) (items : List CartLine) (snaps : List (Product α)) : α :=
  (List.zipWith (fun (line : CartLine) (p : Product α) =>
    p.Price * ((line.Quantity : Int) : α)) items snaps).foldl (fun acc x => acc + x) start

/-- The sum, in cart order, of snapshot price times quantity. -/
def sumInCartOrder (items : List CartLine) (snaps : List (Product α)) : α :=
  sumFrom 0 items snaps

/-- The order-item rows the cart lines give with their snapshots' prices. -/
def itemRows (orderID : Int) (items : List CartLine) (snaps : List (Product α)) :
    List (OrderItemRow α) :=
  List.zipWith (fun (line : CartLine) (p : Product α) =>
    ({ order_id := orderID, product_id := line.ProductID, quantity := line.Quantity,
       price := p.Price } : OrderItemRow α)) items snaps

/-- The priced order items the validation loop builds. -/
def pricedItems (items : List CartLine) (snaps : List (Product α)) : List (OrderItem α) :=
  List.zipWith (fun (line : CartLine) (p : Product α) =>
    ({ ID := 0, ProductID := line.ProductID, Quantity := line.Quantity,
       Price := p.Price } : OrderItem α)) items snaps

/-- The ways a run of the handler on a decoded request can go, each with the response
and the world it ends in. -/
inductive RunCase (env : Env) (req : CreateOrderRequest) (w : World α) :
    Response α × World α → Prop where
  | unknown (pre : List CartLine) (line : CartLine) (post : List CartLine)
      (snaps : List (Product α)) (hsplit : req.Items = pre ++ line :: post)
      (hv : CartValid env w.products pre snaps)
      (hu : LineUnknown env w.products (pre.length, line)) :
      RunCase env req w (productUnavailable line.ProductID,
        { w with trace := w.trace ++ (snapshotEvents pre snaps ++
            [.getProduct line.ProductID none]) })
  | short (pre : List CartLine) (line : CartLine) (post : List CartLine)
      (snaps : List (Product α)) (p : Product α) (hsplit : req.Items = pre ++ line :: post)
      (hv : CartValid env w.products pre snaps)
      (hs : LineShort env w.products (pre.length, line) p) :
      RunCase env req w (insufficientStock line.ProductID,
        { w with trace := w.trace ++ (snapshotEvents pre snaps ++
            [.getProduct line.ProductID (some p)]) })
  | beginErr (snaps : List (Product α)) (e : String)
      (hv : CartValid env w.products req.Items snaps) (hb : env.beginErr = some e) :
      RunCase env req w (persistenceError e,
        { w with trace := w.trace ++ (snapshotEvents req.Items snaps ++ [.begin false]) })
  | headerErr (snaps : List (Product α)) (e : String)
      (hv : CartValid env w.products req.Items snaps) (hb : env.beginErr = none)
      (hh : env.insertOrderErr = some e) :
      RunCase env req w (persistenceError e,
        { w with trace := w.trace ++ (snapshotEvents req.Items snaps ++
            [.begin true,
             .insertOrder req.UserID "pending" (sumInCartOrder req.Items snaps) none,
             .rollback]) })
  | itemErr (snaps : List (Product α)) (pre : List CartLine) (line : CartLine)
      (post : List CartLine) (s1 : List (Product α)) (p : Product α) (e : String)
      (hv : CartValid env w.products req.Items snaps)
      (hsplit : req.Items = pre ++ line :: post) (hl : s1.length = pre.length)
      (hb : env.beginErr = none) (hh : env.insertOrderErr = none)
      (hpre : ∀ k, k < pre.length →
        env.insertItemErr k = none ∧ env.updateStockFails k = false)
      (hi : env.insertItemErr pre.length = some e) :
      RunCase env req w (persistenceError e,
        { w with products := applyDecrements w.products pre,
                 trace := w.trace ++ (snapshotEvents req.Items snaps ++
                   headerEvents env req (sumInCartOrder req.Items snaps) ++
                   itemEvents env.newOrderID (pricedItems pre s1) ++
                   [.insertItem env.newOrderID line.ProductID line.Quantity p.Price false,
                    .rollback]) })
  | stockErr (snaps : List (Product α)) (pre : List CartLine) (line : CartLine)
      (post : List CartLine) (s1 : List (Product α)) (p : Product α)
      (hv : CartValid env w.products req.Items snaps)
      (hsplit : req.Items = pre ++ line :: post) (hl : s1.length = pre.length)
      (hb : env.beginErr = none) (hh : env.insertOrderErr = none)
      (hpre : ∀ k, k < pre.length →
        env.insertItemErr k = none ∧ env.updateStockFails k = false)
      (hi : env.insertItemErr pre.length = none)
      (hs : env.updateStockFails pre.length = true) :
      RunCase env req w (stockUpdateFailed,
        { w with products := applyDecrements w.products pre,
                 trace := w.trace ++ (snapshotEvents req.Items snaps ++
                   headerEvents env req (sumInCartOrder req.Items snaps) ++
                   itemEvents env.newOrderID (pricedItems pre s1) ++
                   [.insertItem env.newOrderID line.ProductID line.Quantity p.Price true,
                    .updateStock line.ProductID (negInt line.Quantity) false,
                    .rollback]) })
  | commitErr (snaps : List (Product α)) (e : String)
      (hv : CartValid env w.products req.Items snaps)
      (hb : env.beginErr = none) (hh : env.insertOrderErr = none)
      (hits : ∀ k, k < req.Items.length →
        env.insertItemErr k = none ∧ env.updateStockFails k = false)
      (hc : env.commitErr = some e) :
      RunCase env req w (persistenceError e,
        { w with products := applyDecrements w.products req.Items,
                 trace := w.trace ++ (snapshotEvents req.Items snaps ++
                   headerEvents env req (sumInCartOrder req.Items snaps) ++
                   itemEvents env.newOrderID (pricedItems req.Items snaps) ++
                   [.commit false, .rollback]) })
  | ok (snaps : List (Product α))
      (hv : CartValid env w.products req.Items snaps)
      (hb : env.beginErr = none) (hh : env.insertOrderErr = none)
      (hits : ∀ k, k < req.Items.length →
        env.insertItemErr k = none ∧ env.updateStockFails k = false)
      (hc : env.commitErr = none) :
      RunCase env req w
        (.created "Order created successfully" env.newOrderID
            (sumInCartOrder req.Items snaps),
          { orders :=
              { orders := w.orders.orders ++
                  [headerRow env req (sumInCartOrder req.Items snaps)],
                order_items := w.orders.order_items ++
                  itemRows env.newOrderID req.Items snaps },
            products := applyDecrements w.products req.Items,
            trace := w.trace ++ (snapshotEvents req.Items snaps ++
              headerEvents env req (sumInCartOrder req.Items snaps) ++
              itemEvents env.newOrderID (pricedItems req.Items snaps) ++
              [.commit true, .rollback]) })

end Notions

/-! ## Concrete inputs -/

/-- The product store of the worked example: product 42 at price 9.99 with 5 in stock. -/
def exampleProducts : List (Product ℚ) :=
  [{ ID := 42, Price := 999 / 100, StockQuantity := 5 }]

/-- A world with an empty orders store, the example product store and an empty log. -/
def exampleWorld : World ℚ :=
  { orders := { orders := [], order_items := [] }, products := exampleProducts, trace := [] }

/-- The cart of the worked example: user 7 asks for 2 of product 42. -/
def exampleCart : CreateOrderRequest :=
  { UserID := 7, Items := [{ ProductID := 42, Quantity := 2 }] }

/-- A cart whose first line references the unknown product 99 and whose second line asks
for 9 of product 42, more than the 5 in stock. -/
def unknownThenShortCart : CreateOrderRequest :=
  { UserID := 7, Items := [{ ProductID := 99, Quantity := 1 }, { ProductID := 42, Quantity := 9 }] }

/-- A cart whose first line asks for 9 of product 42, more than the 5 in stock, and whose
second line references the unknown product 99. -/
def shortThenUnknownCart : CreateOrderRequest :=
  { UserID := 7, Items := [{ ProductID := 42, Quantity := 9 }, { ProductID := 99, Quantity := 1 }] }

/-- A cart of three lines, all within the stock of product 42. -/
def threeLineCart : CreateOrderRequest :=
  { UserID := 7, Items := [{ ProductID := 42, Quantity := 2 }, { ProductID := 42, Quantity := 1 },
                           { ProductID := 42, Quantity := 1 }] }

/-- The environment in which the stock-adjust call of the line at position `k` fails and
nothing else does. -/
def Env.stockFailsAt (newOrderID : Int) (k : Nat) : Env :=
  { Env.ok newOrderID with updateStockFails := fun i => i == k }

/-- The example world with only 1 of product 42 in stock. -/
def lowStockWorld : World ℚ :=
  { orders := { orders := [], order_items := [] },
    products := [{ ID := 42, Price := 999 / 100, StockQuantity := 1 }], trace := [] }

/-- The environment in which the insert of the item at position `k` fails with the given
error text and nothing else does. -/
def Env.itemFailsAt (newOrderID : Int) (k : Nat) (e : String) : Env :=
  { Env.ok newOrderID with insertItemErr := fun i => if i == k then some e else none }

/-- A cart whose only line asks for -3 of product 42. -/
def negativeQuantityCart : CreateOrderRequest :=
  { UserID := 7, Items := [{ ProductID := 42, Quantity := -3 }] }

/-- A cart with two lines for product 42, asking for 3 and for 4 of the 5 in stock. -/
def twoLinesOneProductCart : CreateOrderRequest :=
  { UserID := 7, Items := [{ ProductID := 42, Quantity := 3 }, { ProductID := 42, Quantity := 4 }] }

/-! ## float64 -/

/-- A Go `float64` (IEEE 754 binary64) value: a finite value `(-1)^neg * m * 2^e` in
canonical form (`m < 2^53`, `-1074 ≤ e ≤ 971`, and `2^52 ≤ m` unless `e = -1074`), an
infinity, or NaN. -/
inductive F64 where
  | finite (neg : Bool) (m : Nat) (e : Int)
  | inf (neg : Bool)
  | nan
  deriving DecidableEq, Repr

/-- The number of binary digits of `n`, with `fuel` bounding the number of halvings. -/
def bitLengthAux : Nat → Nat → Nat
  | 0, _ => 0
  | fuel + 1, n => if n = 0 then 0 else bitLengthAux fuel (n / 2) + 1

/-- The number of binary digits of `n`. -/
def bitLength (n : Nat) : Nat := bitLengthAux n n

/-- The float64 nearest to the exact value `(-1)^neg * m * 2^e`, ties to even; `±Inf`
beyond the largest finite value. -/
def F64.round (neg : Bool) (m : Nat) (e : Int) : F64 :=
  if m = 0 then .finite neg 0 (-1074)
  else
    let bits : Int := (bitLength m : Int)
    let e1 : Int := max (e + bits - 53) (-1074)
    let shift : Nat := (e1 - e).toNat
    let q : Nat := if e1 ≤ e then m * 2 ^ (e - e1).toNat else m / 2 ^ shift
    let r : Nat := if e1 ≤ e then 0 else m % 2 ^ shift
    let half : Nat := 2 ^ (shift - 1)
    let q1 : Nat := if r > half ∨ (r = half ∧ q % 2 = 1) then q + 1 else q
    let m2 : Nat := if q1 = 2 ^ 53 then 2 ^ 52 else q1
    let e2 : Int := if q1 = 2 ^ 53 then e1 + 1 else e1
    if e2 > 971 then .inf neg else .finite neg m2 e2

/-- The float64 sum `x + y`: the exact sum, rounded. -/
def F64.add : F64 → F64 → F64
  | .nan, _ => .nan
  | _, .nan => .nan
  | .inf a, .inf b => if a = b then .inf a else .nan
  | .inf a, .finite _ _ _ => .inf a
  | .finite _ _ _, .inf b => .inf b
  | .finite n1 m1 e1, .finite n2 m2 e2 =>
    if m1 = 0 ∧ m2 = 0 then .finite (n1 && n2) 0 (-1074)
    else if m1 = 0 then .finite n2 m2 e2
    else if m2 = 0 then .finite n1 m1 e1
    else
      let e := min e1 e2
      let v1 : Int := (if n1 then -1 else 1) * ((m1 * 2 ^ (e1 - e).toNat : Nat) : Int)
      let v2 : Int := (if n2 then -1 else 1) * ((m2 * 2 ^ (e2 - e).toNat : Nat) : Int)
      let s := v1 + v2
      if s = 0 then .finite false 0 (-1074)
      else F64.round (decide (s < 0)) s.natAbs e

/-- The float64 product `x * y`: the exact product, rounded. -/
def F64.mul : F64 → F64 → F64
  | .nan, _ => .nan
  | _, .nan => .nan
  | .inf a, .inf b => .inf (a != b)
  | .inf a, .finite n m _ => if m = 0 then .nan else .inf (a != n)
  | .finite n m _, .inf b => if m = 0 then .nan else .inf (n != b)
  | .finite n1 m1 e1, .finite n2 m2 e2 => F64.round (n1 != n2) (m1 * m2) (e1 + e2)

/-- The conversion `float64(i)` of an `int`. -/
def F64.ofInt (i : Int) : F64 := F64.round (decide (i < 0)) i.natAbs 0

instance : Zero F64 := ⟨.finite false 0 (-1074)⟩

instance : Add F64 := ⟨F64.add⟩

instance : Mul F64 := ⟨F64.mul⟩

instance : IntCast F64 := ⟨F64.ofInt⟩

/-- The exact value of a finite float64. -/
def F64.toRat : F64 → Option ℚ
  | .finite neg m e => some ((if neg then -1 else 1) * (m : ℚ) * (2 : ℚ) ^ e)
  | _ => none

/-- The sum, in exact rational arithmetic, of snapshot price times quantity over the cart
lines; `none` when a price is not a finite number. -/
def exactSum (items : List CartLine) (snaps : List (Product F64)) : Option ℚ :=
  (List.zipWith (fun (line : CartLine) (p : Product F64) =>
    p.Price.toRat.map (fun price => price * (line.Quantity : ℚ))) items snaps).foldl
    (fun acc x => acc.bind (fun a => x.map (fun b => a + b))) (some 0)

/-- The float64 nearest to 0.1. -/
def tenth : F64 := .finite false 7205759403792794 (-56)

/-- The float64 nearest to 9.99. -/
def nineNinetyNine : F64 := .finite false 5623870034678907 (-49)

/-- The float64 nearest to 19.98. -/
def nineteenNinetyEight : F64 := .finite false 5623870034678907 (-48)

/-- The float64 0.30000000000000004, the one right above the float64 nearest to 0.3. -/
def aboveThreeTenths : F64 := .finite false 5404319552844596 (-54)

/-- A world whose product store holds product 42 at the float64 price 9.99 and product 43
at the float64 price 0.1, both with 5 in stock. -/
def float64World : World F64 :=
  { orders := { orders := [], order_items := [] },
    products := [{ ID := 42, Price := nineNinetyNine, StockQuantity := 5 },
                 { ID := 43, Price := tenth, StockQuantity := 5 }],
    trace := [] }

/-- The cart asking for 3 of product 43. -/
def threeTenthsCart : CreateOrderRequest :=
  { UserID := 7, Items := [{ ProductID := 43, Quantity := 3 }] }


/-! ## The request body reader of the order service -/

/-- The error values of `Read`; `io.EOF` is the only one `jsonReader` returns. -/
inductive ReadErr where
  | EOF
  deriving DecidableEq, Repr

/-- The struct `jsonReader`; `β` is the type of bytes. -/
structure jsonReader (β : Type) where
  data : List β
  deriving DecidableEq, Repr

/-- What a call of `Read(p)` gives back: `n`, the bytes it copied into `p[:n]`, and
`err` (`none` for nil). -/
structure ReadResult (β : Type) where
  n : Nat
  written : List β
  err : Option ReadErr
  deriving DecidableEq, Repr

/-- The body of `func (jr jsonReader) Read(p []byte)`, for a buffer of length `lenP`:
the result, and the value the receiver variable `jr` holds when the body returns. -/
def jsonReader.readBody {β : Type} (jr : jsonReader β) (lenP : Nat) :
    ReadResult β × jsonReader β :=
  if jr.data.length = 0 then ({ n := 0, written := [], err := some .EOF }, jr)
  else
    let n := min lenP jr.data.length
    ({ n := n, written := jr.data.take n, err := none }, { data := jr.data.drop n })

/-- A call `r.Read(p)` on a reader `r` holding a `jsonReader`. The method has a value
receiver: its body works on a copy of the receiver, so the reader holds after the call
the value it held before. -/
def jsonReader.Read {β : Type} (jr : jsonReader β) (lenP : Nat) :
    ReadResult β × jsonReader β :=
  ((jr.readBody lenP).1, jr)

/-- Successive calls `r.Read(p)` on one reader, with buffers of the given lengths. -/
def readCalls {β : Type} (jr : jsonReader β) : List Nat → List (ReadResult β)
  | [] => []
  | lenP :: rest => (jr.Read lenP).1 :: readCalls (jr.Read lenP).2 rest

/-- Successive `Read` calls as they would go if the assignment `jr.data = jr.data[n:]` of
the method body reached the reader (a pointer receiver): each call continues where the
previous one stopped. -/
def readCallsKeepingData {β : Type} (jr : jsonReader β) : List Nat → List (ReadResult β)
  | [] => []
  | lenP :: rest => (jr.readBody lenP).1 :: readCallsKeepingData (jr.readBody lenP).2 rest

/-- The bytes a sequence of `Read` results delivered, in order. -/
def delivered {β : Type} (results : List (ReadResult β)) : List β :=
  results.flatMap (fun r => r.written)

/-- The JSON encoding `json.Marshal` gives for `map[string]int` with the one key
`quantity` and the value -2, as a list of characters. -/
def quantityMinusTwoJSON : List Char :=
  "\x7b\"quantity\":-2\x7d".toList

end OrderService

/-! ## The rate limiter of the gateway -/

namespace ApiGateway

/-- What `rateLimitMiddleware` reads while it handles one request: the request's
`RemoteAddr`, the clock reading behind `time.Since(lastReset)` and the clock reading
`time.Now()` stored in `lastReset` when the counts are reset (nanoseconds). -/
structure Request where
  RemoteAddr : String
  now : Int
  resetNow : Int
  deriving DecidableEq, Repr

/-- The package variables `requestCounts` and `lastReset`. A key absent from the Go map
reads as 0. -/
structure LimiterState where
  requestCounts : String → Int
  lastReset : Int

/-- The constant `time.Minute`, in nanoseconds. -/
def minute : Int := 60 * 1000000000

/-- What the middleware does with the request: call `next.ServeHTTP`, or answer with
`http.Error` and return. -/
inductive Outcome where
  | next
  | error (code : Nat) (msg : String)
  deriving DecidableEq, Repr

/-- The handler returned by `rateLimitMiddleware`, for one request. The increment of the
Go `int` counter wraps around. -/
def rateLimitMiddleware (s : LimiterState) (r : Request) : Outcome × LimiterState :=
  let s1 : LimiterState :=
    if r.now - s.lastReset > minute then
      { requestCounts := fun _ => 0, lastReset := r.resetNow }
    else s
  let clientIP := r.RemoteAddr
  let count := OrderService.wrapInt64 (s1.requestCounts clientIP + 1)
  let s2 : LimiterState :=
    { s1 with requestCounts := fun a => if a = clientIP then count else s1.requestCounts a }
  if count > 100 then (.error 429 "Rate limit exceeded", s2) else (.next, s2)

/-- The middleware handling a sequence of requests one after the other. -/
def serve (s : LimiterState) : List Request → List Outcome × LimiterState
  | [] => ([], s)
  | r :: rest =>
    ((rateLimitMiddleware s r).1 :: (serve (rateLimitMiddleware s r).2 rest).1,
      (serve (rateLimitMiddleware s r).2 rest).2)

/-- The number of requests of a sequence that come from an address. -/
def requestsFrom (addr : String) (reqs : List Request) : Nat :=
  reqs.countP (fun r => r.RemoteAddr = addr)

/-- The limiter as the package initialisers leave it: no counts, `lastReset` at the
given time. -/
def initialState (t : Int) : LimiterState :=
  { requestCounts := fun _ => 0, lastReset := t }

/-- A request from the given address, handled at time 0. -/
def requestFrom (addr : String) : Request :=
  { RemoteAddr := addr, now := 0, resetNow := 0 }

/-- A window of 102 requests: 100 from one address, one from another address, and one
more from the first. -/
def window102 : List Request :=
  List.replicate 100 (requestFrom "10.0.0.1") ++
    [requestFrom "10.0.0.2", requestFrom "10.0.0.1"]

end ApiGateway

namespace OrderService

/-! ## Lemmas on the product store -/

section ProductStore

variable {α : Type}

theorem getProductHandler_isSome_iff (products : List (Product α)) (id : Int) :
    (getProductHandler products id).isSome = true ↔ ∃ p ∈ products, p.ID = id := by
  simp [getProductHandler, List.find?_isSome]

theorem updateStockHandler_fst (products : List (Product α)) (id q : Int) :
    (updateStockHandler products id q).1 = (getProductHandler products id).isSome := by
  unfold updateStockHandler
  by_cases h : (getProductHandler products id).isSome = true
  · have h2 := (getProductHandler_isSome_iff products id).mp h
    have : List.countP (fun p => p.ID == id) products ≠ 0 := by
      intro h0
      rw [List.countP_eq_zero] at h0
      obtain ⟨p, hp, hid⟩ := h2
      exact h0 p hp (by simp [hid])
    simp [this, h]
  · have h0 : List.countP (fun p => p.ID == id) products = 0 := by
      rw [List.countP_eq_zero]
      intro p hp hid
      exact h ((getProductHandler_isSome_iff products id).mpr ⟨p, hp, by simpa using hid⟩)
    simp [h0]
    simpa using h

theorem updateStockHandler_snd (products : List (Product α)) (id q : Int) :
    (updateStockHandler products id q).2 = products.map (fun p =>
      if p.ID == id then { p with StockQuantity := p.StockQuantity + q } else p) := by
  unfold updateStockHandler
  by_cases h0 : List.countP (fun p => p.ID == id) products = 0
  · simp only [h0, beq_self_eq_true, if_true]
    rw [List.countP_eq_zero] at h0
    symm
    conv_rhs => rw [← List.map_id products]
    apply List.map_congr_left
    intro p hp
    have := h0 p hp
    simp at this
    simp [this]
  · simp [h0]

theorem getProductHandler_update (products : List (Product α)) (id q id2 : Int) :
    getProductHandler (updateStockHandler products id q).2 id2 =
      (getProductHandler products id2).map (fun p =>
        if p.ID == id then { p with StockQuantity := p.StockQuantity + q } else p) := by
  rw [updateStockHandler_snd]
  unfold getProductHandler
  rw [List.find?_map]
  have hcomp : ((fun (p : Product α) => p.ID == id2) ∘ fun (p : Product α) =>
      if p.ID == id then { p with StockQuantity := p.StockQuantity + q } else p) =
      fun (p : Product α) => p.ID == id2 := by
    funext p
    simp only [Function.comp]
    split <;> rfl
  rw [hcomp]

theorem isSome_update (products : List (Product α)) (id q id2 : Int) :
    (getProductHandler (updateStockHandler products id q).2 id2).isSome =
      (getProductHandler products id2).isSome := by
  rw [getProductHandler_update]; simp

theorem stockOf_update (products : List (Product α)) (id q id2 : Int) :
    stockOf (updateStockHandler products id q).2 id2 =
      (stockOf products id2).map (fun s => if id2 = id then s + q else s) := by
  unfold stockOf
  rw [getProductHandler_update]
  cases h : getProductHandler products id2 with
  | none => simp
  | some p =>
    have hid : p.ID = id2 := by
      have := List.find?_some h
      simpa using this
    by_cases h2 : id2 = id
    · simp [hid, h2]
    · simp [hid, h2]

end ProductStore

/-! ## Lemmas on the validation loop -/

section Validation

variable {α : Type}

theorem log_orders (w : World α) (e : Event α) : (w.log e).orders = w.orders := rfl

theorem log_products (w : World α) (e : Event α) : (w.log e).products = w.products := rfl

theorem log_trace (w : World α) (e : Event α) : (w.log e).trace = w.trace ++ [e] := rfl

theorem validateItems_append [Zero α] [Add α] [Mul α] [IntCast α] (env : Env)
    (products : List (Product α)) (post : List CartLine) :
    ∀ (pre : List CartLine) (snaps : List (Product α)) (i : Nat) (total : α)
      (acc : List (OrderItem α)) (w : World α), w.products = products →
      List.Forall₂ (LineValid env products) (pre.enumFrom i) snaps →
      validateItems env i (pre ++ post) total acc w =
        validateItems env (i + pre.length) post (sumFrom total pre snaps)
          (acc ++ pricedItems pre snaps)
          { w with trace := w.trace ++
              snapshotEvents pre snaps } := by
  intro pre
  induction pre with
  | nil =>
    intro snaps i total acc w _ h
    cases h
    simp [sumFrom, pricedItems, snapshotEvents]
  | cons line rest ih =>
    intro snaps i total acc w hw h
    rw [List.enumFrom_cons] at h
    cases h with
    | cons h1 h2 =>
      rename_i p ps
      obtain ⟨hg, hf, hq⟩ := h1
      simp only at hg hf hq
      have hlt : ¬ p.StockQuantity < line.Quantity := not_lt.mpr hq
      rw [List.cons_append]
      simp only [validateItems, getProductFromService, hg, hw, hf, hlt,
        if_false, Bool.false_eq_true]
      rw [ih ps (i + 1) _ _ _ (by simp [World.log, hw]) h2]
      simp [sumFrom, pricedItems, snapshotEvents, World.log, hw, Nat.add_assoc, Nat.add_comm 1]

theorem validateItems_ok [Zero α] [Add α] [Mul α] [IntCast α] (env : Env)
    (lines : List CartLine) (snaps : List (Product α)) (i : Nat) (total : α)
    (acc : List (OrderItem α)) (w : World α)
    (h : List.Forall₂ (LineValid env w.products) (lines.enumFrom i) snaps) :
    validateItems env i lines total acc w =
      (.ok (sumFrom total lines snaps, acc ++ pricedItems lines snaps),
        { w with trace := w.trace ++
            snapshotEvents lines snaps }) := by
  have := validateItems_append env w.products [] lines snaps i total acc w rfl h
  simpa [validateItems] using this

theorem validateItems_unknown [Zero α] [Add α] [Mul α] [IntCast α] (env : Env)
    (line : CartLine) (post : List CartLine) (i : Nat) (total : α)
    (acc : List (OrderItem α)) (w : World α)
    (h : LineUnknown env w.products (i, line)) :
    validateItems env i (line :: post) total acc w =
      (.error (productUnavailable line.ProductID),
        w.log (.getProduct line.ProductID none)) := by
  have hr : (if env.getFails i = true then none
      else getProductHandler w.products line.ProductID) = none := by
    rcases h with h | h
    · simp only at h; simp [h]
    · simp only at h; simp [h]
  simp only [validateItems, getProductFromService, hr, productUnavailable]

theorem validateItems_short [Zero α] [Add α] [Mul α] [IntCast α] (env : Env)
    (line : CartLine) (post : List CartLine) (i : Nat) (total : α)
    (acc : List (OrderItem α)) (w : World α) (p : Product α)
    (h : LineShort env w.products (i, line) p) :
    validateItems env i (line :: post) total acc w =
      (.error (insufficientStock line.ProductID),
        w.log (.getProduct line.ProductID (some p))) := by
  obtain ⟨hg, hf, hq⟩ := h
  simp only at hg hf hq
  simp only [validateItems, getProductFromService, hg, hf, hq, insufficientStock, if_true,
    if_false, Bool.false_eq_true]

theorem validation_cases (env : Env) (products : List (Product α)) :
    ∀ (lines : List CartLine) (i : Nat),
      (∃ snaps, List.Forall₂ (LineValid env products) (lines.enumFrom i) snaps) ∨
      (∃ pre line post snaps, lines = pre ++ line :: post ∧
        List.Forall₂ (LineValid env products) (pre.enumFrom i) snaps ∧
        (LineUnknown env products (i + pre.length, line) ∨
          ∃ p, LineShort env products (i + pre.length, line) p)) := by
  intro lines
  induction lines with
  | nil => intro i; exact Or.inl ⟨[], List.Forall₂.nil⟩
  | cons line rest ih =>
    intro i
    by_cases hg : env.getFails i = true
    · exact Or.inr ⟨[], line, rest, [], rfl, List.Forall₂.nil, Or.inl (Or.inl hg)⟩
    · have hg2 : env.getFails i = false := by simpa using hg
      cases hf : getProductHandler products line.ProductID with
      | none => exact Or.inr ⟨[], line, rest, [], rfl, List.Forall₂.nil, Or.inl (Or.inr hf)⟩
      | some p =>
        by_cases hq : p.StockQuantity < line.Quantity
        · exact Or.inr ⟨[], line, rest, [], rfl, List.Forall₂.nil, Or.inr ⟨p, hg2, hf, hq⟩⟩
        · have hv : LineValid env products (i, line) p := ⟨hg2, hf, not_lt.mp hq⟩
          rcases ih (i + 1) with ⟨snaps, hs⟩ | ⟨pre, l, post, snaps, he, hs, hfail⟩
          · exact Or.inl ⟨p :: snaps, by rw [List.enumFrom_cons]; exact List.Forall₂.cons hv hs⟩
          · refine Or.inr ⟨line :: pre, l, post, p :: snaps, by simp [he], ?_, ?_⟩
            · rw [List.enumFrom_cons]; exact List.Forall₂.cons hv hs
            · have : i + (line :: pre).length = i + 1 + pre.length := by
                simp [Nat.add_assoc, Nat.add_comm 1]
              rw [this]; exact hfail

end Validation

/-! ## Lemmas on the item loop -/

section ItemLoop

variable {α : Type}

theorem updateProductStock_ok (env : Env) (i : Nat) (id q : Int) (w : World α)
    (hf : env.updateStockFails i = false)
    (hp : (getProductHandler w.products id).isSome = true) :
    updateProductStock env i id q w =
      (true, { w with products := (updateStockHandler w.products id q).2,
                      trace := w.trace ++ [.updateStock id q true] }) := by
  have h1 := updateStockHandler_fst w.products id q
  rw [hp] at h1
  simp [updateProductStock, hf, h1]

theorem updateProductStock_fail (env : Env) (i : Nat) (id q : Int) (w : World α)
    (hf : env.updateStockFails i = true) :
    updateProductStock env i id q w = (false, w.log (.updateStock id q false)) := by
  simp [updateProductStock, hf]

theorem insertItems_append (env : Env) (orderID : Int) (post : List (OrderItem α)) :
    ∀ (pre : List (OrderItem α)) (i : Nat) (tx : OrdersDB α) (w : World α),
      (∀ k, k < pre.length →
        env.insertItemErr (i + k) = none ∧ env.updateStockFails (i + k) = false) →
      (∀ it ∈ pre, (getProductHandler w.products it.ProductID).isSome = true) →
      insertItems env orderID i (pre ++ post) tx w =
        insertItems env orderID (i + pre.length) post
          { tx with order_items := tx.order_items ++ rowsOf orderID pre }
          { w with products := applyItemDecrements w.products pre,
                   trace := w.trace ++ itemEvents orderID pre } := by
  intro pre
  induction pre with
  | nil =>
    intro i tx w _ _
    simp [rowsOf, applyItemDecrements, itemEvents]
  | cons it rest ih =>
    intro i tx w henv hex
    have h0 := henv 0 (by simp)
    simp only [Nat.add_zero] at h0
    have hups := updateProductStock_ok env i it.ProductID (negInt it.Quantity)
      (w.log (.insertItem orderID it.ProductID it.Quantity it.Price true)) h0.2
      (by rw [log_products]; exact hex it (by simp))
    rw [List.cons_append]
    simp only [insertItems, h0.1, hups]
    rw [ih (i + 1)]
    · simp [rowsOf, applyItemDecrements, itemEvents, World.log, Nat.add_assoc, Nat.add_comm 1]
    · intro k hk
      have := henv (k + 1) (by simpa using hk)
      rw [show i + 1 + k = i + (k + 1) by omega]
      exact this
    · intro it2 h2
      simp only [log_products]
      rw [isSome_update]
      exact hex it2 (by simp [h2])

theorem insertItems_ok (env : Env) (orderID : Int) (its : List (OrderItem α)) (i : Nat)
    (tx : OrdersDB α) (w : World α)
    (henv : ∀ k, k < its.length →
      env.insertItemErr (i + k) = none ∧ env.updateStockFails (i + k) = false)
    (hex : ∀ it ∈ its, (getProductHandler w.products it.ProductID).isSome = true) :
    insertItems env orderID i its tx w =
      (.ok { tx with order_items := tx.order_items ++ rowsOf orderID its },
        { w with products := applyItemDecrements w.products its,
                 trace := w.trace ++ itemEvents orderID its }) := by
  have := insertItems_append env orderID [] its i tx w henv hex
  simpa [insertItems] using this

theorem insertItems_insertErr (env : Env) (orderID : Int) (it : OrderItem α)
    (post : List (OrderItem α)) (i : Nat) (tx : OrdersDB α) (w : World α) (e : String)
    (h : env.insertItemErr i = some e) :
    insertItems env orderID i (it :: post) tx w =
      (.error (persistenceError e),
        w.log (.insertItem orderID it.ProductID it.Quantity it.Price false)) := by
  simp only [insertItems, h, persistenceError]

theorem insertItems_stockErr (env : Env) (orderID : Int) (it : OrderItem α)
    (post : List (OrderItem α)) (i : Nat) (tx : OrdersDB α) (w : World α)
    (h1 : env.insertItemErr i = none) (h2 : env.updateStockFails i = true) :
    insertItems env orderID i (it :: post) tx w =
      (.error stockUpdateFailed,
        (w.log (.insertItem orderID it.ProductID it.Quantity it.Price true)).log
          (.updateStock it.ProductID (negInt it.Quantity) false)) := by
  simp only [insertItems, h1, updateProductStock_fail _ _ _ _ _ h2, stockUpdateFailed]

end ItemLoop

/-! ## Lemmas on the transaction part -/

section Persist

variable {α : Type}

theorem persistOrder_beginErr (env : Env) (req : CreateOrderRequest) (total : α)
    (its : List (OrderItem α)) (w : World α) (e : String) (hb : env.beginErr = some e) :
    persistOrder env req total its w = (persistenceError e, w.log (.begin false)) := by
  simp only [persistOrder, hb, persistenceError]

theorem persistOrder_headerErr (env : Env) (req : CreateOrderRequest) (total : α)
    (its : List (OrderItem α)) (w : World α) (e : String) (hb : env.beginErr = none)
    (hh : env.insertOrderErr = some e) :
    persistOrder env req total its w =
      (persistenceError e,
        { w with trace := w.trace ++
            [.begin true, .insertOrder req.UserID "pending" total none, .rollback] }) := by
  simp [persistOrder, hb, hh, persistenceError, World.log]

theorem persistOrder_itemErr (env : Env) (req : CreateOrderRequest) (total : α)
    (pre : List (OrderItem α)) (it : OrderItem α) (post : List (OrderItem α)) (w : World α)
    (e : String) (hb : env.beginErr = none) (hh : env.insertOrderErr = none)
    (hpre : ∀ k, k < pre.length →
      env.insertItemErr k = none ∧ env.updateStockFails k = false)
    (hex : ∀ x ∈ pre, (getProductHandler w.products x.ProductID).isSome = true)
    (hi : env.insertItemErr pre.length = some e) :
    persistOrder env req total (pre ++ it :: post) w =
      (persistenceError e,
        { w with products := applyItemDecrements w.products pre,
                 trace := w.trace ++ headerEvents env req total ++
                   itemEvents env.newOrderID pre ++
                   [.insertItem env.newOrderID it.ProductID it.Quantity it.Price false,
                    .rollback] }) := by
  simp only [persistOrder, hb, hh]
  rw [insertItems_append env env.newOrderID (it :: post) pre 0 _ _
    (by intro k hk; simpa using hpre k hk) (by simpa [log_products] using hex)]
  rw [insertItems_insertErr _ _ _ _ _ _ _ e (by simpa using hi)]
  simp [World.log, headerEvents]

theorem persistOrder_stockErr (env : Env) (req : CreateOrderRequest) (total : α)
    (pre : List (OrderItem α)) (it : OrderItem α) (post : List (OrderItem α)) (w : World α)
    (hb : env.beginErr = none) (hh : env.insertOrderErr = none)
    (hpre : ∀ k, k < pre.length →
      env.insertItemErr k = none ∧ env.updateStockFails k = false)
    (hex : ∀ x ∈ pre, (getProductHandler w.products x.ProductID).isSome = true)
    (hi : env.insertItemErr pre.length = none)
    (hs : env.updateStockFails pre.length = true) :
    persistOrder env req total (pre ++ it :: post) w =
      (stockUpdateFailed,
        { w with products := applyItemDecrements w.products pre,
                 trace := w.trace ++ headerEvents env req total ++
                   itemEvents env.newOrderID pre ++
                   [.insertItem env.newOrderID it.ProductID it.Quantity it.Price true,
                    .updateStock it.ProductID (negInt it.Quantity) false, .rollback] }) := by
  simp only [persistOrder, hb, hh]
  rw [insertItems_append env env.newOrderID (it :: post) pre 0 _ _
    (by intro k hk; simpa using hpre k hk) (by simpa [log_products] using hex)]
  rw [insertItems_stockErr _ _ _ _ _ _ _ (by simpa using hi) (by simpa using hs)]
  simp [World.log, headerEvents]

theorem persistOrder_commitErr (env : Env) (req : CreateOrderRequest) (total : α)
    (its : List (OrderItem α)) (w : World α) (e : String)
    (hb : env.beginErr = none) (hh : env.insertOrderErr = none)
    (hits : ∀ k, k < its.length →
      env.insertItemErr k = none ∧ env.updateStockFails k = false)
    (hex : ∀ x ∈ its, (getProductHandler w.products x.ProductID).isSome = true)
    (hc : env.commitErr = some e) :
    persistOrder env req total its w =
      (persistenceError e,
        { w with products := applyItemDecrements w.products its,
                 trace := w.trace ++ headerEvents env req total ++
                   itemEvents env.newOrderID its ++ [.commit false, .rollback] }) := by
  simp only [persistOrder, hb, hh]
  rw [insertItems_ok env env.newOrderID its 0 _ _
    (by intro k hk; simpa using hits k hk) (by simpa [log_products] using hex)]
  simp [hc, World.log, headerEvents, persistenceError]

theorem persistOrder_ok (env : Env) (req : CreateOrderRequest) (total : α)
    (its : List (OrderItem α)) (w : World α)
    (hb : env.beginErr = none) (hh : env.insertOrderErr = none)
    (hits : ∀ k, k < its.length →
      env.insertItemErr k = none ∧ env.updateStockFails k = false)
    (hex : ∀ x ∈ its, (getProductHandler w.products x.ProductID).isSome = true)
    (hc : env.commitErr = none) :
    persistOrder env req total its w =
      (.created "Order created successfully" env.newOrderID total,
        { orders := { orders := w.orders.orders ++ [headerRow env req total],
                      order_items := w.orders.order_items ++ rowsOf env.newOrderID its },
          products := applyItemDecrements w.products its,
          trace := w.trace ++ headerEvents env req total ++
            itemEvents env.newOrderID its ++ [.commit true, .rollback] }) := by
  simp only [persistOrder, hb, hh]
  rw [insertItems_ok env env.newOrderID its 0 _ _
    (by intro k hk; simpa using hits k hk) (by simpa [log_products] using hex)]
  simp [hc, World.log, headerEvents, headerRow]

end Persist

/-! ## Lemmas on the whole handler -/

section Handler

variable {α : Type}

theorem forall₂_enumFrom_length (env : Env) (products : List (Product α))
    (lines : List CartLine) (snaps : List (Product α)) (i : Nat)
    (h : List.Forall₂ (LineValid env products) (lines.enumFrom i) snaps) :
    lines.length = snaps.length := by
  have := h.length_eq
  simpa using this

theorem pricedItems_found (env : Env) (products : List (Product α)) :
    ∀ (lines : List CartLine) (snaps : List (Product α)) (i : Nat),
      List.Forall₂ (LineValid env products) (lines.enumFrom i) snaps →
      ∀ x ∈ pricedItems lines snaps, (getProductHandler products x.ProductID).isSome = true := by
  intro lines
  induction lines with
  | nil => intro snaps i h x hx; cases h; simp [pricedItems] at hx
  | cons line rest ih =>
    intro snaps i h x hx
    rw [List.enumFrom_cons] at h
    cases h with
    | cons h1 h2 =>
      simp only [pricedItems, List.zipWith_cons_cons, List.mem_cons] at hx
      rcases hx with hx | hx
      · subst hx; simp [h1.2.1]
      · exact ih _ _ h2 x hx

theorem pricedItems_length (lines : List CartLine) (snaps : List (Product α))
    (h : lines.length = snaps.length) : (pricedItems lines snaps).length = lines.length := by
  simp [pricedItems, h]

theorem rowsOf_pricedItems (orderID : Int) (lines : List CartLine) (snaps : List (Product α)) :
    rowsOf orderID (pricedItems lines snaps) = itemRows orderID lines snaps := by
  simp [rowsOf, pricedItems, itemRows, List.map_zipWith]

theorem applyItemDecrements_pricedItems :
    ∀ (lines : List CartLine) (snaps : List (Product α)) (products : List (Product α)),
      lines.length = snaps.length →
      applyItemDecrements products (pricedItems lines snaps) = applyDecrements products lines := by
  intro lines
  induction lines with
  | nil => intro snaps products _; simp [applyItemDecrements, applyDecrements, pricedItems]
  | cons line rest ih =>
    intro snaps products h
    cases snaps with
    | nil => simp at h
    | cons p ps =>
      have := ih ps (updateStockHandler products line.ProductID (negInt line.Quantity)).2
        (by simpa using h)
      simpa [applyItemDecrements, applyDecrements, pricedItems] using this

theorem stockCalls_append (l1 l2 : List (Event α)) :
    stockCalls (l1 ++ l2) = stockCalls l1 ++ stockCalls l2 := by
  induction l1 with
  | nil => simp [stockCalls]
  | cons e rest ih => cases e <;> simp [stockCalls, ih]

theorem stockCalls_snapshotEvents (lines : List CartLine) (snaps : List (Product α)) :
    stockCalls (snapshotEvents lines snaps) = [] := by
  induction lines generalizing snaps with
  | nil => simp [snapshotEvents, stockCalls]
  | cons line rest ih =>
    cases snaps with
    | nil => simp [snapshotEvents, stockCalls]
    | cons p ps =>
      have := ih ps
      simpa [snapshotEvents, stockCalls] using this

theorem stockCalls_itemEvents (orderID : Int) (its : List (OrderItem α)) :
    stockCalls (itemEvents orderID its) =
      its.map (fun it => (it.ProductID, negInt it.Quantity)) := by
  induction its with
  | nil => simp [itemEvents, stockCalls]
  | cons it rest ih =>
    have : itemEvents orderID (it :: rest) =
        [Event.insertItem orderID it.ProductID it.Quantity it.Price true,
         Event.updateStock it.ProductID (negInt it.Quantity) true] ++ itemEvents orderID rest := by
      simp [itemEvents]
    rw [this, stockCalls_append, ih]
    simp [stockCalls]

theorem map_pricedItems (lines : List CartLine) (snaps : List (Product α))
    (h : lines.length = snaps.length) :
    (pricedItems lines snaps).map (fun it => (it.ProductID, negInt it.Quantity)) =
      lines.map (fun l => (l.ProductID, negInt l.Quantity)) := by
  induction lines generalizing snaps with
  | nil => simp [pricedItems]
  | cons line rest ih =>
    cases snaps with
    | nil => simp at h
    | cons p ps =>
      have := ih ps (by simpa using h)
      simpa [pricedItems] using this

theorem newEvents_append (w : World α) (o : OrdersDB α) (ps : List (Product α))
    (evs : List (Event α)) :
    newEvents w { orders := o, products := ps, trace := w.trace ++ evs } = evs := by
  simp [newEvents]

variable [Zero α] [Add α] [Mul α] [IntCast α]

theorem handler_valid (env : Env) (req : CreateOrderRequest) (w : World α)
    (snaps : List (Product α)) (h : CartValid env w.products req.Items snaps) :
    createOrderHandler env (.ok req) w =
      persistOrder env req (sumInCartOrder req.Items snaps) (pricedItems req.Items snaps)
        { w with trace := w.trace ++ snapshotEvents req.Items snaps } := by
  have := validateItems_ok env req.Items snaps 0 0 [] w h
  simp only [createOrderHandler, this, sumInCartOrder, List.nil_append]

theorem handler_unknown (env : Env) (req : CreateOrderRequest) (w : World α)
    (pre : List CartLine) (line : CartLine) (post : List CartLine) (snaps : List (Product α))
    (hsplit : req.Items = pre ++ line :: post) (h : CartValid env w.products pre snaps)
    (hu : LineUnknown env w.products (pre.length, line)) :
    createOrderHandler env (.ok req) w =
      (productUnavailable line.ProductID,
        { w with trace := w.trace ++ snapshotEvents pre snaps ++
            [.getProduct line.ProductID none] }) := by
  have h1 := validateItems_append env w.products (line :: post) pre snaps 0 0 [] w rfl h
  simp only [createOrderHandler, hsplit, h1]
  rw [validateItems_unknown env line post _ _ _ _ (by simpa using hu)]
  simp [World.log]

theorem handler_short (env : Env) (req : CreateOrderRequest) (w : World α)
    (pre : List CartLine) (line : CartLine) (post : List CartLine) (snaps : List (Product α))
    (p : Product α)
    (hsplit : req.Items = pre ++ line :: post) (h : CartValid env w.products pre snaps)
    (hs : LineShort env w.products (pre.length, line) p) :
    createOrderHandler env (.ok req) w =
      (insufficientStock line.ProductID,
        { w with trace := w.trace ++ snapshotEvents pre snaps ++
            [.getProduct line.ProductID (some p)] }) := by
  have h1 := validateItems_append env w.products (line :: post) pre snaps 0 0 [] w rfl h
  simp only [createOrderHandler, hsplit, h1]
  rw [validateItems_short env line post _ _ _ _ p (by simpa using hs)]
  simp [World.log]

end Handler

/-! ## The handler at the first failure of the item loop -/

section HandlerFailures

variable {α : Type}

theorem forall₂_enumFrom_split (env : Env) (products : List (Product α))
    (line : CartLine) (post : List CartLine) :
    ∀ (pre : List CartLine) (i : Nat) (snaps : List (Product α)),
      List.Forall₂ (LineValid env products) ((pre ++ line :: post).enumFrom i) snaps →
      ∃ s1 p s2, snaps = s1 ++ p :: s2 ∧ s1.length = pre.length ∧
        List.Forall₂ (LineValid env products) (pre.enumFrom i) s1 ∧
        LineValid env products (i + pre.length, line) p ∧
        List.Forall₂ (LineValid env products) (post.enumFrom (i + pre.length + 1)) s2 := by
  intro pre
  induction pre with
  | nil =>
    intro i snaps h
    simp only [List.nil_append, List.enumFrom_cons] at h
    cases h with
    | cons h1 h2 =>
      rename_i p s2
      exact ⟨[], p, s2, rfl, rfl, List.Forall₂.nil, by simpa using h1, by simpa using h2⟩
  | cons a rest ih =>
    intro i snaps h
    simp only [List.cons_append, List.enumFrom_cons] at h
    cases h with
    | cons h1 h2 =>
      rename_i q qs
      obtain ⟨s1, p, s2, he, hl, hv1, hv, hv2⟩ := ih (i + 1) qs h2
      refine ⟨q :: s1, p, s2, by simp [he], by simp [hl], ?_, ?_, ?_⟩
      · rw [List.enumFrom_cons]; exact List.Forall₂.cons h1 hv1
      · rw [show i + (a :: rest).length = i + 1 + rest.length by simp; omega]; exact hv
      · rw [show i + (a :: rest).length + 1 = i + 1 + rest.length + 1 by simp; omega]; exact hv2

theorem cartValid_split (env : Env) (products : List (Product α))
    (pre : List CartLine) (line : CartLine) (post : List CartLine) (snaps : List (Product α))
    (h : CartValid env products (pre ++ line :: post) snaps) :
    ∃ s1 p s2, snaps = s1 ++ p :: s2 ∧ s1.length = pre.length ∧
      CartValid env products pre s1 ∧ LineValid env products (pre.length, line) p := by
  obtain ⟨s1, p, s2, he, hl, hv1, hv, _⟩ := forall₂_enumFrom_split env products line post pre 0 snaps h
  exact ⟨s1, p, s2, he, hl, hv1, by simpa using hv⟩

theorem pricedItems_split (pre : List CartLine) (line : CartLine) (post : List CartLine)
    (s1 : List (Product α)) (p : Product α) (s2 : List (Product α))
    (hl : s1.length = pre.length) :
    pricedItems (pre ++ line :: post) (s1 ++ p :: s2) =
      pricedItems pre s1 ++
        { ID := 0, ProductID := line.ProductID, Quantity := line.Quantity, Price := p.Price } ::
          pricedItems post s2 := by
  unfold pricedItems
  rw [List.zipWith_append _ _ _ _ _ hl.symm]
  simp

variable [Zero α] [Add α] [Mul α] [IntCast α]

theorem handler_itemErr (env : Env) (req : CreateOrderRequest) (w : World α)
    (snaps : List (Product α)) (pre : List CartLine) (line : CartLine) (post : List CartLine)
    (e : String)
    (hvalid : CartValid env w.products req.Items snaps)
    (hsplit : req.Items = pre ++ line :: post)
    (hb : env.beginErr = none) (hh : env.insertOrderErr = none)
    (hpre : ∀ k, k < pre.length →
      env.insertItemErr k = none ∧ env.updateStockFails k = false)
    (hi : env.insertItemErr pre.length = some e) :
    ∃ (s1 : List (Product α)) (p : Product α), s1.length = pre.length ∧
      createOrderHandler env (.ok req) w =
        (persistenceError e,
          { w with products := applyDecrements w.products pre,
                   trace := w.trace ++ (snapshotEvents req.Items snaps ++
                     headerEvents env req (sumInCartOrder req.Items snaps) ++
                     itemEvents env.newOrderID (pricedItems pre s1) ++
                     [.insertItem env.newOrderID line.ProductID line.Quantity p.Price false,
                      .rollback]) }) := by
  have hvalid2 := hvalid
  rw [hsplit] at hvalid2
  obtain ⟨s1, p, s2, he, hl, hv1, _⟩ := cartValid_split env w.products pre line post snaps hvalid2
  refine ⟨s1, p, hl, ?_⟩
  have hlen : (pricedItems pre s1).length = pre.length := pricedItems_length pre s1 hl.symm
  have hP := persistOrder_itemErr env req (sumInCartOrder req.Items snaps) (pricedItems pre s1)
    { ID := 0, ProductID := line.ProductID, Quantity := line.Quantity, Price := p.Price }
    (pricedItems post s2) { w with trace := w.trace ++ snapshotEvents req.Items snaps } e hb hh
    (by rw [hlen]; exact hpre) (pricedItems_found env w.products pre s1 0 hv1)
    (by rw [hlen]; exact hi)
  have hpi : pricedItems req.Items snaps = pricedItems pre s1 ++
      { ID := 0, ProductID := line.ProductID, Quantity := line.Quantity, Price := p.Price } ::
        pricedItems post s2 := by
    rw [hsplit, he, pricedItems_split pre line post s1 p s2 hl]
  rw [handler_valid env req w snaps hvalid, hpi, hP]
  simp [applyItemDecrements_pricedItems pre s1 w.products hl.symm]

theorem handler_stockErr (env : Env) (req : CreateOrderRequest) (w : World α)
    (snaps : List (Product α)) (pre : List CartLine) (line : CartLine) (post : List CartLine)
    (hvalid : CartValid env w.products req.Items snaps)
    (hsplit : req.Items = pre ++ line :: post)
    (hb : env.beginErr = none) (hh : env.insertOrderErr = none)
    (hpre : ∀ k, k < pre.length →
      env.insertItemErr k = none ∧ env.updateStockFails k = false)
    (hi : env.insertItemErr pre.length = none)
    (hs : env.updateStockFails pre.length = true) :
    ∃ (s1 : List (Product α)) (p : Product α), s1.length = pre.length ∧
      createOrderHandler env (.ok req) w =
        (stockUpdateFailed,
          { w with products := applyDecrements w.products pre,
                   trace := w.trace ++ (snapshotEvents req.Items snaps ++
                     headerEvents env req (sumInCartOrder req.Items snaps) ++
                     itemEvents env.newOrderID (pricedItems pre s1) ++
                     [.insertItem env.newOrderID line.ProductID line.Quantity p.Price true,
                      .updateStock line.ProductID (negInt line.Quantity) false,
                      .rollback]) }) := by
  have hvalid2 := hvalid
  rw [hsplit] at hvalid2
  obtain ⟨s1, p, s2, he, hl, hv1, _⟩ := cartValid_split env w.products pre line post snaps hvalid2
  refine ⟨s1, p, hl, ?_⟩
  have hlen : (pricedItems pre s1).length = pre.length := pricedItems_length pre s1 hl.symm
  have hP := persistOrder_stockErr env req (sumInCartOrder req.Items snaps) (pricedItems pre s1)
    { ID := 0, ProductID := line.ProductID, Quantity := line.Quantity, Price := p.Price }
    (pricedItems post s2) { w with trace := w.trace ++ snapshotEvents req.Items snaps } hb hh
    (by rw [hlen]; exact hpre) (pricedItems_found env w.products pre s1 0 hv1)
    (by rw [hlen]; exact hi) (by rw [hlen]; exact hs)
  have hpi : pricedItems req.Items snaps = pricedItems pre s1 ++
      { ID := 0, ProductID := line.ProductID, Quantity := line.Quantity, Price := p.Price } ::
        pricedItems post s2 := by
    rw [hsplit, he, pricedItems_split pre line post s1 p s2 hl]
  rw [handler_valid env req w snaps hvalid, hpi, hP]
  simp [applyItemDecrements_pricedItems pre s1 w.products hl.symm]

theorem handler_beginErr (env : Env) (req : CreateOrderRequest) (w : World α)
    (snaps : List (Product α)) (e : String)
    (hvalid : CartValid env w.products req.Items snaps) (hb : env.beginErr = some e) :
    createOrderHandler env (.ok req) w =
      (persistenceError e,
        { w with trace := w.trace ++ (snapshotEvents req.Items snaps ++ [.begin false]) }) := by
  rw [handler_valid env req w snaps hvalid, persistOrder_beginErr _ _ _ _ _ e hb]
  simp [World.log]

theorem handler_headerErr (env : Env) (req : CreateOrderRequest) (w : World α)
    (snaps : List (Product α)) (e : String)
    (hvalid : CartValid env w.products req.Items snaps) (hb : env.beginErr = none)
    (hh : env.insertOrderErr = some e) :
    createOrderHandler env (.ok req) w =
      (persistenceError e,
        { w with trace := w.trace ++ (snapshotEvents req.Items snaps ++
            [.begin true,
             .insertOrder req.UserID "pending" (sumInCartOrder req.Items snaps) none,
             .rollback]) }) := by
  rw [handler_valid env req w snaps hvalid, persistOrder_headerErr _ _ _ _ _ e hb hh]
  simp

theorem handler_commitErr (env : Env) (req : CreateOrderRequest) (w : World α)
    (snaps : List (Product α)) (e : String)
    (hvalid : CartValid env w.products req.Items snaps)
    (hb : env.beginErr = none) (hh : env.insertOrderErr = none)
    (hits : ∀ k, k < req.Items.length →
      env.insertItemErr k = none ∧ env.updateStockFails k = false)
    (hc : env.commitErr = some e) :
    createOrderHandler env (.ok req) w =
      (persistenceError e,
        { w with products := applyDecrements w.products req.Items,
                 trace := w.trace ++ (snapshotEvents req.Items snaps ++
                   headerEvents env req (sumInCartOrder req.Items snaps) ++
                   itemEvents env.newOrderID (pricedItems req.Items snaps) ++
                   [.commit false, .rollback]) }) := by
  have hl := forall₂_enumFrom_length env w.products req.Items snaps 0 hvalid
  have hlen := pricedItems_length req.Items snaps hl
  rw [handler_valid env req w snaps hvalid]
  rw [persistOrder_commitErr env req _ _
    { w with trace := w.trace ++ snapshotEvents req.Items snaps } e hb hh
    (by rw [hlen]; exact hits) (pricedItems_found env w.products req.Items snaps 0 hvalid) hc]
  simp [applyItemDecrements_pricedItems req.Items snaps w.products hl]

theorem handler_ok (env : Env) (req : CreateOrderRequest) (w : World α)
    (snaps : List (Product α))
    (hvalid : CartValid env w.products req.Items snaps)
    (hb : env.beginErr = none) (hh : env.insertOrderErr = none)
    (hits : ∀ k, k < req.Items.length →
      env.insertItemErr k = none ∧ env.updateStockFails k = false)
    (hc : env.commitErr = none) :
    createOrderHandler env (.ok req) w =
      (.created "Order created successfully" env.newOrderID (sumInCartOrder req.Items snaps),
        { orders :=
            { orders := w.orders.orders ++
                [headerRow env req (sumInCartOrder req.Items snaps)],
              order_items := w.orders.order_items ++
                itemRows env.newOrderID req.Items snaps },
          products := applyDecrements w.products req.Items,
          trace := w.trace ++ (snapshotEvents req.Items snaps ++
            headerEvents env req (sumInCartOrder req.Items snaps) ++
            itemEvents env.newOrderID (pricedItems req.Items snaps) ++
            [.commit true, .rollback]) }) := by
  have hl := forall₂_enumFrom_length env w.products req.Items snaps 0 hvalid
  have hlen := pricedItems_length req.Items snaps hl
  rw [handler_valid env req w snaps hvalid]
  rw [persistOrder_ok env req _ _
    { w with trace := w.trace ++ snapshotEvents req.Items snaps } hb hh
    (by rw [hlen]; exact hits) (pricedItems_found env w.products req.Items snaps 0 hvalid) hc]
  simp [applyItemDecrements_pricedItems req.Items snaps w.products hl, rowsOf_pricedItems]

end HandlerFailures

/-! ## Validation: facts that do not depend on the run -/

section ValidationFacts

variable {α : Type}

theorem forall₂_mem_left {β γ : Type} (R : β → γ → Prop) :
    ∀ (l : List β) (m : List γ), List.Forall₂ R l m → ∀ a ∈ l, ∃ b, R a b := by
  intro l m h
  induction h with
  | nil => intro a ha; simp at ha
  | cons h1 _ ih =>
    intro a ha
    rcases List.mem_cons.mp ha with ha | ha
    · subst ha; exact ⟨_, h1⟩
    · exact ih a ha

theorem lineValid_not_short (env : Env) (products : List (Product α)) (il : Nat × CartLine)
    (p q : Product α) (hv : LineValid env products il p) (hs : LineShort env products il q) :
    False := by
  obtain ⟨_, hf, hq⟩ := hv
  obtain ⟨_, hf2, hq2⟩ := hs
  rw [hf] at hf2
  cases hf2
  omega

theorem lineValid_not_unknown (env : Env) (products : List (Product α)) (il : Nat × CartLine)
    (p : Product α) (hv : LineValid env products il p) (hu : LineUnknown env products il) :
    False := by
  obtain ⟨hg, hf, _⟩ := hv
  rcases hu with hu | hu
  · rw [hg] at hu; cases hu
  · rw [hf] at hu; cases hu

theorem productUnavailable_ne_insufficientStock (a b : Int) :
    (productUnavailable a : Response α) ≠ insufficientStock b := by
  intro h
  simp only [productUnavailable, insufficientStock, Response.error.injEq, true_and] at h
  have h2 := congrArg (fun s => s.data.head?) h
  simp [String.data_append] at h2

theorem list_split_at {β : Type} (l : List β) (k : Nat) (hk : k < l.length) :
    ∃ x post, l = l.take k ++ x :: post ∧ l.take (k + 1) = l.take k ++ [x] := by
  refine ⟨l[k], l.drop (k + 1), ?_, ?_⟩
  · rw [← List.drop_eq_getElem_cons hk, List.take_append_drop]
  · rw [List.take_succ, List.getElem?_eq_getElem hk]; rfl

variable [Zero α] [Add α] [Mul α] [IntCast α]

/-- The outcome of a run whose validation loop fails: the error of the first cart line
that fails validation, with both stores untouched and no stock-adjust call. -/
theorem validation_failure_outcome (env : Env) (req : CreateOrderRequest) (w : World α)
    (h : ¬ ∃ snaps, CartValid env w.products req.Items snaps) :
    ∃ (pre : List CartLine) (line : CartLine) (post : List CartLine)
      (snaps : List (Product α)),
      req.Items = pre ++ line :: post ∧ CartValid env w.products pre snaps ∧
      (((∃ p, LineShort env w.products (pre.length, line) p) ∧
          (createOrderHandler env (.ok req) w).1 = insufficientStock line.ProductID) ∨
        (LineUnknown env w.products (pre.length, line) ∧
          (createOrderHandler env (.ok req) w).1 = productUnavailable line.ProductID)) ∧
      (createOrderHandler env (.ok req) w).2.orders = w.orders ∧
      (createOrderHandler env (.ok req) w).2.products = w.products ∧
      stockCalls (newEvents w (createOrderHandler env (.ok req) w).2) = [] := by
  rcases validation_cases env w.products req.Items 0 with
    ⟨snaps, hs⟩ | ⟨pre, line, post, snaps, he, hs, hfail⟩
  · exact absurd ⟨snaps, hs⟩ h
  · simp only [Nat.zero_add] at hfail
    refine ⟨pre, line, post, snaps, he, hs, ?_⟩
    rcases hfail with hu | ⟨p, hp⟩
    · rw [handler_unknown env req w pre line post snaps he hs hu]
      refine ⟨Or.inr ⟨hu, rfl⟩, rfl, rfl, ?_⟩
      rw [List.append_assoc, newEvents_append, stockCalls_append, stockCalls_snapshotEvents]
      rfl
    · rw [handler_short env req w pre line post snaps p he hs hp]
      refine ⟨Or.inl ⟨⟨p, hp⟩, rfl⟩, rfl, rfl, ?_⟩
      rw [List.append_assoc, newEvents_append, stockCalls_append, stockCalls_snapshotEvents]
      rfl

end ValidationFacts

/-! ## Properties of the order fulfilment workflow -/

section OrderTotal

variable {α : Type} [Zero α] [Add α] [Mul α] [IntCast α]

/-- C1, amended: when every cart line's snapshot is found with stock at least the
requested quantity and the store and stock-adjust calls all succeed, `createOrderHandler`
answers 201 and the `total_amount` of its body is the sum, in cart order and starting from
zero, of snapshot price times quantity in the arithmetic of the amounts: for `float64`
(`F64`) every product and every partial sum is rounded to the nearest float64. -/
theorem createOrder_total (env : Env) (req : CreateOrderRequest) (w : World α)
    (snaps : List (Product α))
    (hvalid : CartValid env w.products req.Items snaps)
    (hbegin : env.beginErr = none) (hheader : env.insertOrderErr = none)
    (hitems : ∀ k, k < req.Items.length → env.insertItemErr k = none)
    (hstock : ∀ k, k < req.Items.length → env.updateStockFails k = false)
    (hcommit : env.commitErr = none) :
    (createOrderHandler env (.ok req) w).1 =
      .created "Order created successfully" env.newOrderID
        (sumInCartOrder req.Items snaps) := by
  rw [handler_ok env req w snaps hvalid hbegin hheader
    (fun k hk => ⟨hitems k hk, hstock k hk⟩) hcommit]

/-- C2 as stated fails: in `unknownThenShortCart` the second line asks for more than the
stock its snapshot reports, yet the handler answers `ProductUnavailable` for product 99
of the first line, and not `InsufficientStock` for any product. -/
theorem insufficientStock_counterexample :
    (∃ il ∈ unknownThenShortCart.Items.enum,
      ∃ p, LineShort (Env.ok 1) exampleWorld.products il p) ∧
    (createOrderHandler (Env.ok 1) (.ok unknownThenShortCart) exampleWorld).1 =
      productUnavailable 99 ∧
    ∀ id, (createOrderHandler (Env.ok 1) (.ok unknownThenShortCart) exampleWorld).1 ≠
      insufficientStock id := by
  have hr : (createOrderHandler (Env.ok 1) (.ok unknownThenShortCart) exampleWorld).1 =
      productUnavailable 99 := by decide
  refine ⟨⟨(1, { ProductID := 42, Quantity := 9 }), by decide,
    { ID := 42, Price := 999 / 100, StockQuantity := 5 }, rfl, rfl, by decide⟩, hr, ?_⟩
  intro id
  rw [hr]
  exact productUnavailable_ne_insufficientStock 99 id

/-- C2, amended: when some cart line asks for more than the stock its snapshot reports,
the handler answers the validation error of the first line that fails validation,
`InsufficientStock` naming its product when that line's snapshot is short of stock and
`ProductUnavailable` naming it when its snapshot read fails; no order or order-item row
is persisted, the product store is untouched and no stock-adjust call is issued. -/
theorem insufficientStock_clean_abort (env : Env) (req : CreateOrderRequest) (w : World α)
    (h : ∃ il ∈ req.Items.enum, ∃ p, LineShort env w.products il p) :
    ∃ (pre : List CartLine) (line : CartLine) (post : List CartLine)
      (snaps : List (Product α)),
      req.Items = pre ++ line :: post ∧ CartValid env w.products pre snaps ∧
      (((∃ p, LineShort env w.products (pre.length, line) p) ∧
          (createOrderHandler env (.ok req) w).1 = insufficientStock line.ProductID) ∨
        (LineUnknown env w.products (pre.length, line) ∧
          (createOrderHandler env (.ok req) w).1 = productUnavailable line.ProductID)) ∧
      (createOrderHandler env (.ok req) w).2.orders = w.orders ∧
      (createOrderHandler env (.ok req) w).2.products = w.products ∧
      stockCalls (newEvents w (createOrderHandler env (.ok req) w).2) = [] := by
  apply validation_failure_outcome
  rintro ⟨snaps, hs⟩
  obtain ⟨il, hil, p, hp⟩ := h
  obtain ⟨q, hq⟩ := forall₂_mem_left _ _ _ hs il hil
  exact lineValid_not_short env w.products il q p hq hp

end OrderTotal

/-! ## Stock levels after decrements -/

section StockLevels

variable {α : Type}

theorem applyDecrements_cons (products : List (Product α)) (line : CartLine)
    (rest : List CartLine) :
    applyDecrements products (line :: rest) =
      applyDecrements (updateStockHandler products line.ProductID (negInt line.Quantity)).2
        rest := by
  simp [applyDecrements]

theorem stockOf_applyDecrements :
    ∀ (lines : List CartLine) (products : List (Product α)) (id : Int),
      stockOf (applyDecrements products lines) id =
        (stockOf products id).map (fun s => s + deltaFor id lines) := by
  intro lines
  induction lines with
  | nil => intro products id; simp [applyDecrements, deltaFor]
  | cons line rest ih =>
    intro products id
    rw [applyDecrements_cons, ih, stockOf_update]
    cases stockOf products id with
    | none => simp
    | some s =>
      by_cases h : id = line.ProductID
      · simp [deltaFor, h, List.filter_cons]; omega
      · have h2 : ¬ line.ProductID = id := fun e => h e.symm
        simp [deltaFor, h, h2, List.filter_cons]

theorem insufficientStock_ne_productUnavailable (a b : Int) :
    (insufficientStock a : Response α) ≠ productUnavailable b :=
  fun h => productUnavailable_ne_insufficientStock b a h.symm

end StockLevels

section ValidationAborts

variable {α : Type} [Zero α] [Add α] [Mul α] [IntCast α]

/-- Witness of the amended C2: the example cart against a store holding only 1 of
product 42. -/
theorem insufficientStock_clean_abort_witness :
    (∃ il ∈ exampleCart.Items.enum, ∃ p, LineShort (Env.ok 1) lowStockWorld.products il p) ∧
    ∃ (pre : List CartLine) (line : CartLine) (post : List CartLine)
      (snaps : List (Product ℚ)),
      exampleCart.Items = pre ++ line :: post ∧
      CartValid (Env.ok 1) lowStockWorld.products pre snaps ∧
      (((∃ p, LineShort (Env.ok 1) lowStockWorld.products (pre.length, line) p) ∧
          (createOrderHandler (Env.ok 1) (.ok exampleCart) lowStockWorld).1 =
            insufficientStock line.ProductID) ∨
        (LineUnknown (Env.ok 1) lowStockWorld.products (pre.length, line) ∧
          (createOrderHandler (Env.ok 1) (.ok exampleCart) lowStockWorld).1 =
            productUnavailable line.ProductID)) ∧
      (createOrderHandler (Env.ok 1) (.ok exampleCart) lowStockWorld).2.orders =
        lowStockWorld.orders ∧
      (createOrderHandler (Env.ok 1) (.ok exampleCart) lowStockWorld).2.products =
        lowStockWorld.products ∧
      stockCalls (newEvents lowStockWorld
        (createOrderHandler (Env.ok 1) (.ok exampleCart) lowStockWorld).2) = [] :=
  have h : ∃ il ∈ exampleCart.Items.enum,
      ∃ p, LineShort (Env.ok 1) lowStockWorld.products il p :=
    ⟨(0, { ProductID := 42, Quantity := 2 }), by decide,
      { ID := 42, Price := 999 / 100, StockQuantity := 1 }, rfl, rfl, by decide⟩
  ⟨h, insufficientStock_clean_abort (Env.ok 1) exampleCart lowStockWorld h⟩

/-- C3 as stated fails: `shortThenUnknownCart` references the unknown product 99 in its
second line, yet the handler answers `InsufficientStock` for product 42 of the first
line, and not `ProductUnavailable` for any product. -/
theorem productUnavailable_counterexample :
    (∃ il ∈ shortThenUnknownCart.Items.enum,
      LineUnknown (Env.ok 1) exampleWorld.products il) ∧
    (createOrderHandler (Env.ok 1) (.ok shortThenUnknownCart) exampleWorld).1 =
      insufficientStock 42 ∧
    ∀ id, (createOrderHandler (Env.ok 1) (.ok shortThenUnknownCart) exampleWorld).1 ≠
      productUnavailable id := by
  have hr : (createOrderHandler (Env.ok 1) (.ok shortThenUnknownCart) exampleWorld).1 =
      insufficientStock 42 := by decide
  refine ⟨⟨(1, { ProductID := 99, Quantity := 1 }), by decide, Or.inr rfl⟩, hr, ?_⟩
  intro id
  rw [hr]
  exact insufficientStock_ne_productUnavailable 42 id

/-- C3, amended: when the snapshot read of some cart line answers not-found or fails,
the handler answers the validation error of the first line that fails validation,
`ProductUnavailable` naming its product when that line's snapshot read fails and
`InsufficientStock` naming it when its snapshot is short of stock; no order or
order-item row is persisted, the product store is untouched and no stock-adjust call is
issued. -/
theorem productUnavailable_clean_abort (env : Env) (req : CreateOrderRequest) (w : World α)
    (h : ∃ il ∈ req.Items.enum, LineUnknown env w.products il) :
    ∃ (pre : List CartLine) (line : CartLine) (post : List CartLine)
      (snaps : List (Product α)),
      req.Items = pre ++ line :: post ∧ CartValid env w.products pre snaps ∧
      ((LineUnknown env w.products (pre.length, line) ∧
          (createOrderHandler env (.ok req) w).1 = productUnavailable line.ProductID) ∨
        ((∃ p, LineShort env w.products (pre.length, line) p) ∧
          (createOrderHandler env (.ok req) w).1 = insufficientStock line.ProductID)) ∧
      (createOrderHandler env (.ok req) w).2.orders = w.orders ∧
      (createOrderHandler env (.ok req) w).2.products = w.products ∧
      stockCalls (newEvents w (createOrderHandler env (.ok req) w).2) = [] := by
  have hn : ¬ ∃ snaps, CartValid env w.products req.Items snaps := by
    rintro ⟨snaps, hs⟩
    obtain ⟨il, hil, hu⟩ := h
    obtain ⟨q, hq⟩ := forall₂_mem_left _ _ _ hs il hil
    exact lineValid_not_unknown env w.products il q hq hu
  obtain ⟨pre, line, post, snaps, he, hv, hr, ho, hp, hc⟩ :=
    validation_failure_outcome env req w hn
  exact ⟨pre, line, post, snaps, he, hv, hr.symm, ho, hp, hc⟩

/-- Witness of the amended C3: a cart whose only line references the unknown
product 99. -/
theorem productUnavailable_clean_abort_witness :
    (∃ il ∈ [({ ProductID := 99, Quantity := 1 } : CartLine)].enum,
      LineUnknown (Env.ok 1) exampleWorld.products il) ∧
    (createOrderHandler (Env.ok 1)
      (.ok { UserID := 7, Items := [{ ProductID := 99, Quantity := 1 }] }) exampleWorld).2.orders =
        exampleWorld.orders := by
  have h : ∃ il ∈ [({ ProductID := 99, Quantity := 1 } : CartLine)].enum,
      LineUnknown (Env.ok 1) exampleWorld.products il :=
    ⟨(0, { ProductID := 99, Quantity := 1 }), by decide, Or.inr rfl⟩
  obtain ⟨_, _, _, _, _, _, _, ho, _, _⟩ := productUnavailable_clean_abort (Env.ok 1)
    { UserID := 7, Items := [{ ProductID := 99, Quantity := 1 }] } exampleWorld h
  exact ⟨h, ho⟩

/-- C4: for a cart of `n` lines that passes validation and `1 ≤ N ≤ n`, when the
stock-adjust call for the `N`-th item is the first call to fail, the handler answers
`StockUpdateFailed`, the orders store is as it was before the request, and the product
store holds the decrements of items `1..N-1`: the stock-adjust calls of the run are
exactly the decrements of items `1..N`, with no compensating call. -/
theorem stockUpdateFailed_partial_decrement (env : Env) (req : CreateOrderRequest)
    (w : World α) (snaps : List (Product α)) (N : Nat)
    (hvalid : CartValid env w.products req.Items snaps)
    (hN1 : 1 ≤ N) (hN2 : N ≤ req.Items.length)
    (hbegin : env.beginErr = none) (hheader : env.insertOrderErr = none)
    (hitems : ∀ k, k < N → env.insertItemErr k = none)
    (hstock : ∀ k, k < N - 1 → env.updateStockFails k = false)
    (hfail : env.updateStockFails (N - 1) = true) :
    (createOrderHandler env (.ok req) w).1 = stockUpdateFailed ∧
    (createOrderHandler env (.ok req) w).2.orders = w.orders ∧
    (createOrderHandler env (.ok req) w).2.products =
      applyDecrements w.products (req.Items.take (N - 1)) ∧
    (∀ id, stockOf (createOrderHandler env (.ok req) w).2.products id =
      (stockOf w.products id).map (fun s => s + deltaFor id (req.Items.take (N - 1)))) ∧
    stockCalls (newEvents w (createOrderHandler env (.ok req) w).2) =
      (req.Items.take N).map (fun l => (l.ProductID, negInt l.Quantity)) := by
  obtain ⟨line, post, hsplit, htake⟩ := list_split_at req.Items (N - 1) (by omega)
  have hlen : (req.Items.take (N - 1)).length = N - 1 := by
    rw [List.length_take]; omega
  obtain ⟨s1, p, hl, hrun⟩ := handler_stockErr env req w snaps (req.Items.take (N - 1)) line
    post hvalid hsplit hbegin hheader
    (by rw [hlen]; intro k hk; exact ⟨hitems k (by omega), hstock k hk⟩)
    (by rw [hlen]; exact hitems _ (by omega)) (by rw [hlen]; exact hfail)
  rw [hrun]
  refine ⟨rfl, rfl, rfl, fun id => stockOf_applyDecrements _ _ _, ?_⟩
  rw [newEvents_append]
  simp only [stockCalls_append, stockCalls_snapshotEvents, stockCalls_itemEvents,
    map_pricedItems _ _ hl.symm, headerEvents, stockCalls, List.nil_append]
  rw [show N = N - 1 + 1 by omega, htake]
  simp

/-- Witness of C4: in a cart of three lines the stock-adjust call of the second item
fails; the decrement of the first item stays on the product store. -/
theorem stockUpdateFailed_partial_decrement_witness :
    (createOrderHandler (Env.stockFailsAt 1 1) (.ok threeLineCart) exampleWorld).1 =
      stockUpdateFailed ∧
    (createOrderHandler (Env.stockFailsAt 1 1) (.ok threeLineCart) exampleWorld).2.orders =
      exampleWorld.orders ∧
    stockOf (createOrderHandler (Env.stockFailsAt 1 1) (.ok threeLineCart)
      exampleWorld).2.products 42 = some 3 ∧
    stockCalls (newEvents exampleWorld
      (createOrderHandler (Env.stockFailsAt 1 1) (.ok threeLineCart) exampleWorld).2) =
      [(42, -2), (42, -1)] := by
  have hv : CartValid (Env.stockFailsAt 1 1) exampleWorld.products threeLineCart.Items
      [{ ID := 42, Price := 999 / 100, StockQuantity := 5 },
       { ID := 42, Price := 999 / 100, StockQuantity := 5 },
       { ID := 42, Price := 999 / 100, StockQuantity := 5 }] :=
    List.Forall₂.cons ⟨rfl, rfl, by decide⟩ (List.Forall₂.cons ⟨rfl, rfl, by decide⟩
      (List.Forall₂.cons ⟨rfl, rfl, by decide⟩ List.Forall₂.nil))
  obtain ⟨h1, h2, _, h4, h5⟩ := stockUpdateFailed_partial_decrement (Env.stockFailsAt 1 1)
    threeLineCart exampleWorld _ 2 hv (by decide) (by decide) rfl rfl (fun _ _ => rfl)
    (fun k hk => by interval_cases k; rfl) rfl
  refine ⟨h1, h2, ?_, ?_⟩
  · rw [h4]; decide
  · rw [h5]; decide

end ValidationAborts

/-! ## Every run is one of the cases -/

section Cases

variable {α : Type}

theorem itemLoop_cases (env : Env) :
    ∀ n : Nat,
      (∀ k, k < n → env.insertItemErr k = none ∧ env.updateStockFails k = false) ∨
      ∃ m, m < n ∧
        (∀ k, k < m → env.insertItemErr k = none ∧ env.updateStockFails k = false) ∧
        ((∃ e, env.insertItemErr m = some e) ∨
          (env.insertItemErr m = none ∧ env.updateStockFails m = true)) := by
  intro n
  induction n with
  | zero => exact Or.inl (fun k hk => absurd hk (Nat.not_lt_zero k))
  | succ n ih =>
    rcases ih with hall | ⟨m, hm, hpre, hfail⟩
    · cases hi : env.insertItemErr n with
      | some e => exact Or.inr ⟨n, Nat.lt_succ_self n, hall, Or.inl ⟨e, hi⟩⟩
      | none =>
        cases hs : env.updateStockFails n with
        | true => exact Or.inr ⟨n, Nat.lt_succ_self n, hall, Or.inr ⟨hi, hs⟩⟩
        | false =>
          refine Or.inl (fun k hk => ?_)
          rcases Nat.lt_succ_iff_lt_or_eq.mp hk with h | h
          · exact hall k h
          · subst h; exact ⟨hi, hs⟩
    · exact Or.inr ⟨m, Nat.lt_succ_of_lt hm, hpre, hfail⟩

variable [Zero α] [Add α] [Mul α] [IntCast α]

theorem handler_runCase (env : Env) (req : CreateOrderRequest) (w : World α) :
    RunCase env req w (createOrderHandler env (.ok req) w) := by
  rcases validation_cases env w.products req.Items 0 with
    ⟨snaps, hv⟩ | ⟨pre, line, post, snaps, he, hv, hfail⟩
  · cases hb : env.beginErr with
    | some e =>
      rw [handler_beginErr env req w snaps e hv hb]
      exact RunCase.beginErr snaps e hv hb
    | none =>
      cases hh : env.insertOrderErr with
      | some e =>
        rw [handler_headerErr env req w snaps e hv hb hh]
        exact RunCase.headerErr snaps e hv hb hh
      | none =>
        rcases itemLoop_cases env req.Items.length with hall | ⟨m, hm, hpre, hfail⟩
        · cases hc : env.commitErr with
          | some e =>
            rw [handler_commitErr env req w snaps e hv hb hh hall hc]
            exact RunCase.commitErr snaps e hv hb hh hall hc
          | none =>
            rw [handler_ok env req w snaps hv hb hh hall hc]
            exact RunCase.ok snaps hv hb hh hall hc
        · obtain ⟨line, post, hsplit, _⟩ := list_split_at req.Items m hm
          have hlen : (req.Items.take m).length = m := by
            rw [List.length_take]; omega
          rcases hfail with ⟨e, hi⟩ | ⟨hi, hs⟩
          · obtain ⟨s1, p, hl, hrun⟩ := handler_itemErr env req w snaps (req.Items.take m)
              line post e hv hsplit hb hh (by rw [hlen]; exact hpre) (by rw [hlen]; exact hi)
            rw [hrun]
            exact RunCase.itemErr snaps _ line post s1 p e hv hsplit hl hb hh
              (by rw [hlen]; exact hpre) (by rw [hlen]; exact hi)
          · obtain ⟨s1, p, hl, hrun⟩ := handler_stockErr env req w snaps (req.Items.take m)
              line post hv hsplit hb hh (by rw [hlen]; exact hpre) (by rw [hlen]; exact hi)
              (by rw [hlen]; exact hs)
            rw [hrun]
            exact RunCase.stockErr snaps _ line post s1 p hv hsplit hl hb hh
              (by rw [hlen]; exact hpre) (by rw [hlen]; exact hi) (by rw [hlen]; exact hs)
  · simp only [Nat.zero_add] at hfail
    rcases hfail with hu | ⟨p, hp⟩
    · rw [handler_unknown env req w pre line post snaps he hv hu, List.append_assoc]
      exact RunCase.unknown pre line post snaps he hv hu
    · rw [handler_short env req w pre line post snaps p he hv hp, List.append_assoc]
      exact RunCase.short pre line post snaps p he hv hp

end Cases

/-! ## Stock-adjust calls of a run -/

section StockCalls

variable {α : Type}

theorem negInt_neg_of_pos (q : Int) (hpos : 0 < q) (hr : InInt64 q) : negInt q < 0 := by
  unfold InInt64 at hr
  unfold negInt wrapInt64
  omega

theorem take_length_append {β : Type} (pre : List β) (rest : List β) :
    (pre ++ rest).take pre.length = pre := by
  simp

theorem take_length_succ_append {β : Type} (pre : List β) (x : β) (post : List β) :
    (pre ++ x :: post).take (pre.length + 1) = pre ++ [x] := by
  simp [List.take_append_eq_append_take]

variable [Zero α] [Add α] [Mul α] [IntCast α]

/-- The stock-adjust calls of a run are the decrements of the first `m` cart lines, for
some `m`, and of all lines when the run answers 201. -/
theorem runCase_stockCalls (env : Env) (req : CreateOrderRequest) (w : World α)
    (out : Response α × World α) (h : RunCase env req w out) :
    ∃ m, m ≤ req.Items.length ∧
      stockCalls (newEvents w out.2) =
        (req.Items.take m).map (fun l => (l.ProductID, negInt l.Quantity)) ∧
      (out.1.status = 201 → m = req.Items.length) := by
  cases h with
  | unknown pre line post snaps hsplit hv hu =>
    refine ⟨0, Nat.zero_le _, ?_, by simp [productUnavailable, Response.status]⟩
    simp [newEvents_append, stockCalls_append, stockCalls_snapshotEvents, stockCalls]
  | short pre line post snaps p hsplit hv hs =>
    refine ⟨0, Nat.zero_le _, ?_, by simp [insufficientStock, Response.status]⟩
    simp [newEvents_append, stockCalls_append, stockCalls_snapshotEvents, stockCalls]
  | beginErr snaps e hv hb =>
    refine ⟨0, Nat.zero_le _, ?_, by simp [persistenceError, Response.status]⟩
    simp [newEvents_append, stockCalls_append, stockCalls_snapshotEvents, stockCalls]
  | headerErr snaps e hv hb hh =>
    refine ⟨0, Nat.zero_le _, ?_, by simp [persistenceError, Response.status]⟩
    simp [newEvents_append, stockCalls_append, stockCalls_snapshotEvents, stockCalls]
  | itemErr snaps pre line post s1 p e hv hsplit hl hb hh hpre hi =>
    refine ⟨pre.length, by simp [hsplit], ?_, by simp [persistenceError, Response.status]⟩
    rw [hsplit, take_length_append]
    simp [newEvents_append, stockCalls_append, stockCalls_snapshotEvents, stockCalls,
      stockCalls_itemEvents, map_pricedItems _ _ hl.symm, headerEvents]
  | stockErr snaps pre line post s1 p hv hsplit hl hb hh hpre hi hs =>
    refine ⟨pre.length + 1, by simp [hsplit], ?_, by simp [stockUpdateFailed, Response.status]⟩
    rw [hsplit, take_length_succ_append]
    simp [newEvents_append, stockCalls_append, stockCalls_snapshotEvents, stockCalls,
      stockCalls_itemEvents, map_pricedItems _ _ hl.symm, headerEvents]
  | commitErr snaps e hv hb hh hits hc =>
    refine ⟨req.Items.length, Nat.le_refl _, ?_, fun _ => rfl⟩
    have hl := forall₂_enumFrom_length env w.products req.Items snaps 0 hv
    simp [newEvents_append, stockCalls_append, stockCalls_snapshotEvents, stockCalls,
      stockCalls_itemEvents, map_pricedItems _ _ hl, headerEvents]
  | ok snaps hv hb hh hits hc =>
    refine ⟨req.Items.length, Nat.le_refl _, ?_, fun _ => rfl⟩
    have hl := forall₂_enumFrom_length env w.products req.Items snaps 0 hv
    simp [newEvents_append, stockCalls_append, stockCalls_snapshotEvents, stockCalls,
      stockCalls_itemEvents, map_pricedItems _ _ hl, headerEvents]

/-- No stock-adjust call is made by a run that fails before the item loop. -/
theorem runCase_stockCalls_nil (env : Env) (req : CreateOrderRequest) (w : World α)
    (out : Response α × World α) (h : RunCase env req w out)
    (hearly : (¬ ∃ snaps, CartValid env w.products req.Items snaps) ∨
      env.beginErr ≠ none ∨ env.insertOrderErr ≠ none) :
    stockCalls (newEvents w out.2) = [] := by
  have hcontra : ∀ snaps, CartValid env w.products req.Items snaps →
      env.beginErr = none → env.insertOrderErr = none → False := by
    intro snaps hv hb hh
    rcases hearly with h1 | h1 | h1
    · exact h1 ⟨snaps, hv⟩
    · exact h1 hb
    · exact h1 hh
  cases h with
  | unknown pre line post snaps hsplit hv hu =>
    simp [newEvents_append, stockCalls_append, stockCalls_snapshotEvents, stockCalls]
  | short pre line post snaps p hsplit hv hs =>
    simp [newEvents_append, stockCalls_append, stockCalls_snapshotEvents, stockCalls]
  | beginErr snaps e hv hb =>
    simp [newEvents_append, stockCalls_append, stockCalls_snapshotEvents, stockCalls]
  | headerErr snaps e hv hb hh =>
    simp [newEvents_append, stockCalls_append, stockCalls_snapshotEvents, stockCalls]
  | itemErr snaps pre line post s1 p e hv hsplit hl hb hh hpre hi =>
    exact absurd (hcontra snaps hv hb hh) id
  | stockErr snaps pre line post s1 p hv hsplit hl hb hh hpre hi hs =>
    exact absurd (hcontra snaps hv hb hh) id
  | commitErr snaps e hv hb hh hits hc => exact absurd (hcontra snaps hv hb hh) id
  | ok snaps hv hb hh hits hc => exact absurd (hcontra snaps hv hb hh) id

end StockCalls

section StockCallSequence

variable {α : Type} [Zero α] [Add α] [Mul α] [IntCast α]

/-- C5: the stock-adjust calls issued by one run of `createOrderHandler` are exactly
`adjust(product_i, -quantity_i)` for the first `m` cart lines, in cart order, where `m`
is the number of cart lines when the run answers 201, 0 when validation, `Begin` or the
header insert fails, `k` when the insert of the item at position `k` (counted from 0) is
the first failure, and `k + 1` when its stock-adjust call is the first failure. -/
theorem stock_calls_sequence (env : Env) (req : CreateOrderRequest) (w : World α) :
    (∃ m, m ≤ req.Items.length ∧
      stockCalls (newEvents w (createOrderHandler env (.ok req) w).2) =
        (req.Items.take m).map (fun l => (l.ProductID, negInt l.Quantity))) ∧
    ((createOrderHandler env (.ok req) w).1.status = 201 →
      stockCalls (newEvents w (createOrderHandler env (.ok req) w).2) =
        req.Items.map (fun l => (l.ProductID, negInt l.Quantity))) ∧
    (((¬ ∃ snaps, CartValid env w.products req.Items snaps) ∨
        env.beginErr ≠ none ∨ env.insertOrderErr ≠ none) →
      stockCalls (newEvents w (createOrderHandler env (.ok req) w).2) = []) ∧
    (∀ (snaps : List (Product α)) (k : Nat),
      CartValid env w.products req.Items snaps →
      env.beginErr = none → env.insertOrderErr = none → k < req.Items.length →
      (∀ j, j < k → env.insertItemErr j = none ∧ env.updateStockFails j = false) →
      (env.insertItemErr k ≠ none →
        stockCalls (newEvents w (createOrderHandler env (.ok req) w).2) =
          (req.Items.take k).map (fun l => (l.ProductID, negInt l.Quantity))) ∧
      (env.insertItemErr k = none → env.updateStockFails k = true →
        stockCalls (newEvents w (createOrderHandler env (.ok req) w).2) =
          (req.Items.take (k + 1)).map (fun l => (l.ProductID, negInt l.Quantity)))) := by
  have hcase := handler_runCase env req w
  obtain ⟨m, hm, hcalls, h201⟩ := runCase_stockCalls env req w _ hcase
  refine ⟨⟨m, hm, hcalls⟩, ?_, runCase_stockCalls_nil env req w _ hcase, ?_⟩
  · intro hs
    rw [hcalls, h201 hs, List.take_length]
  · intro snaps k hv hb hh hk hpre
    obtain ⟨line, post, hsplit, htake⟩ := list_split_at req.Items k hk
    have hlen : (req.Items.take k).length = k := by
      rw [List.length_take]; omega
    constructor
    · intro hi
      cases hie : env.insertItemErr k with
      | none => exact absurd hie hi
      | some e =>
        obtain ⟨s1, p, hl, hrun⟩ := handler_itemErr env req w snaps (req.Items.take k)
          line post e hv hsplit hb hh (by rw [hlen]; exact hpre) (by rw [hlen]; exact hie)
        rw [hrun, newEvents_append]
        simp [stockCalls_append, stockCalls_snapshotEvents, stockCalls,
          stockCalls_itemEvents, map_pricedItems _ _ hl.symm, headerEvents]
    · intro hi hs
      obtain ⟨s1, p, hl, hrun⟩ := handler_stockErr env req w snaps (req.Items.take k)
        line post hv hsplit hb hh (by rw [hlen]; exact hpre) (by rw [hlen]; exact hi)
        (by rw [hlen]; exact hs)
      rw [hrun, newEvents_append, htake]
      simp [stockCalls_append, stockCalls_snapshotEvents, stockCalls,
        stockCalls_itemEvents, map_pricedItems _ _ hl.symm, headerEvents]

/-- C6 as stated fails: the cart asking for -3 of product 42 is accepted (201) and the
stock-adjust call issued for it passes the delta 3, which is not negative. -/
theorem negative_delta_counterexample :
    (createOrderHandler (Env.ok 1) (.ok negativeQuantityCart) exampleWorld).1.status = 201 ∧
    stockCalls (newEvents exampleWorld
      (createOrderHandler (Env.ok 1) (.ok negativeQuantityCart) exampleWorld).2) =
      [(42, 3)] ∧ ¬ ((3 : Int) < 0) := by
  decide

/-- C6, amended: every stock-adjust call a run issues is made for a cart line and
passes the negation of that line's quantity as delta; the delta is negative whenever
that quantity is positive. -/
theorem delta_negative_of_positive_quantity (env : Env) (req : CreateOrderRequest)
    (w : World α) (call : Int × Int)
    (hcall : call ∈ stockCalls (newEvents w (createOrderHandler env (.ok req) w).2)) :
    ∃ line ∈ req.Items, call = (line.ProductID, negInt line.Quantity) ∧
      (InInt64 line.Quantity → 0 < line.Quantity → call.2 < 0) := by
  obtain ⟨m, _, hcalls, _⟩ := runCase_stockCalls env req w _ (handler_runCase env req w)
  rw [hcalls, List.mem_map] at hcall
  obtain ⟨line, hmem, rfl⟩ := hcall
  exact ⟨line, List.mem_of_mem_take hmem, rfl, fun hr hpos => negInt_neg_of_pos _ hpos hr⟩

/-- Witness of the amended C6: the call issued for the example cart passes -2. -/
theorem delta_negative_of_positive_quantity_witness :
    ((42, -2) : Int × Int) ∈ stockCalls (newEvents exampleWorld
      (createOrderHandler (Env.ok 1) (.ok exampleCart) exampleWorld).2) ∧
    ∃ line ∈ exampleCart.Items, ((42, -2) : Int × Int) = (line.ProductID, negInt line.Quantity) ∧
      (InInt64 line.Quantity → 0 < line.Quantity → ((42, -2) : Int × Int).2 < 0) :=
  have h : ((42, -2) : Int × Int) ∈ stockCalls (newEvents exampleWorld
      (createOrderHandler (Env.ok 1) (.ok exampleCart) exampleWorld).2) := by decide
  ⟨h, delta_negative_of_positive_quantity (Env.ok 1) exampleCart exampleWorld (42, -2) h⟩

end StockCallSequence

/-! ## Classes of log entries -/

section EventClasses

variable {α : Type}

theorem any_snapshotEvents_isCommit (lines : List CartLine) (snaps : List (Product α)) :
    (snapshotEvents lines snaps).any Event.isCommit = false := by
  induction lines generalizing snaps with
  | nil => simp [snapshotEvents]
  | cons line rest ih =>
    cases snaps with
    | nil => simp [snapshotEvents]
    | cons p ps =>
      have := ih ps
      simpa [snapshotEvents, Event.isCommit] using this

theorem any_snapshotEvents_isFailedWrite (lines : List CartLine) (snaps : List (Product α)) :
    (snapshotEvents lines snaps).any Event.isFailedWrite = false := by
  induction lines generalizing snaps with
  | nil => simp [snapshotEvents]
  | cons line rest ih =>
    cases snaps with
    | nil => simp [snapshotEvents]
    | cons p ps =>
      have := ih ps
      simpa [snapshotEvents, Event.isFailedWrite] using this

theorem any_itemEvents_isCommit (orderID : Int) (its : List (OrderItem α)) :
    (itemEvents orderID its).any Event.isCommit = false := by
  induction its with
  | nil => simp [itemEvents]
  | cons it rest ih =>
    have : itemEvents orderID (it :: rest) =
        [Event.insertItem orderID it.ProductID it.Quantity it.Price true,
         Event.updateStock it.ProductID (negInt it.Quantity) true] ++ itemEvents orderID rest := by
      simp [itemEvents]
    rw [this, List.any_append, ih]
    simp [Event.isCommit]

theorem any_itemEvents_isFailedWrite (orderID : Int) (its : List (OrderItem α)) :
    (itemEvents orderID its).any Event.isFailedWrite = false := by
  induction its with
  | nil => simp [itemEvents]
  | cons it rest ih =>
    have : itemEvents orderID (it :: rest) =
        [Event.insertItem orderID it.ProductID it.Quantity it.Price true,
         Event.updateStock it.ProductID (negInt it.Quantity) true] ++ itemEvents orderID rest := by
      simp [itemEvents]
    rw [this, List.any_append, ih]
    simp [Event.isFailedWrite]

theorem mem_enum_split (pre : List CartLine) (line : CartLine) (post : List CartLine) :
    (pre.length, line) ∈ (pre ++ line :: post).enum := by
  rw [List.mk_mem_enum_iff_getElem?, List.getElem?_append_right (Nat.le_refl _)]
  simp

theorem cartValid_no_failure (env : Env) (products : List (Product α))
    (items : List CartLine) (snaps : List (Product α))
    (hv : CartValid env products items snaps) :
    ¬ ∃ il ∈ items.enum, LineUnknown env products il ∨ ∃ p, LineShort env products il p := by
  rintro ⟨il, hil, hfail⟩
  obtain ⟨q, hq⟩ := forall₂_mem_left _ _ _ hv il hil
  rcases hfail with hu | ⟨p, hp⟩
  · exact lineValid_not_unknown env products il q hq hu
  · exact lineValid_not_short env products il q p hq hp

theorem sumFrom_itemRows [Zero α] [Add α] [Mul α] [IntCast α] (orderID : Int) :
    ∀ (items : List CartLine) (snaps : List (Product α)) (start : α),
      sumFrom start items snaps =
        (itemRows orderID items snaps).foldl
          (fun acc r => acc + r.price * ((r.quantity : Int) : α)) start := by
  intro items
  induction items with
  | nil => intro snaps start; simp [sumFrom, itemRows]
  | cons line rest ih =>
    intro snaps start
    cases snaps with
    | nil => simp [sumFrom, itemRows]
    | cons p ps =>
      have := ih ps (start + p.Price * ((line.Quantity : Int) : α))
      simpa [sumFrom, itemRows] using this

theorem itemRows_length (orderID : Int) (items : List CartLine) (snaps : List (Product α))
    (h : items.length = snaps.length) :
    (itemRows orderID items snaps).length = items.length := by
  simp [itemRows, h]

end EventClasses

section StoreFailures

variable {α : Type} [Zero α] [Add α] [Mul α] [IntCast α]

/-- C7: for a validated cart, when the orders store fails at the header insert, at the
insert of an item, or at commit, and that is the first failure of the run, the handler
answers `PersistenceError` with the store's error text and the orders store is as it was
before the request, while the `m` stock decrements already issued stay applied on the
product store: `m` is 0 for the header insert, the number of items before the failing
item insert, and the number of cart lines for the commit. -/
theorem persistenceError_rollback (env : Env) (req : CreateOrderRequest) (w : World α)
    (snaps : List (Product α)) (m : Nat) (e : String)
    (hvalid : CartValid env w.products req.Items snaps)
    (hbegin : env.beginErr = none)
    (hfail :
      (m = 0 ∧ env.insertOrderErr = some e) ∨
      (env.insertOrderErr = none ∧ m < req.Items.length ∧
        (∀ k, k < m → env.insertItemErr k = none ∧ env.updateStockFails k = false) ∧
        env.insertItemErr m = some e) ∨
      (env.insertOrderErr = none ∧ m = req.Items.length ∧
        (∀ k, k < m → env.insertItemErr k = none ∧ env.updateStockFails k = false) ∧
        env.commitErr = some e)) :
    (createOrderHandler env (.ok req) w).1 = persistenceError e ∧
    (createOrderHandler env (.ok req) w).2.orders = w.orders ∧
    (createOrderHandler env (.ok req) w).2.products =
      applyDecrements w.products (req.Items.take m) ∧
    (∀ id, stockOf (createOrderHandler env (.ok req) w).2.products id =
      (stockOf w.products id).map (fun s => s + deltaFor id (req.Items.take m))) ∧
    stockCalls (newEvents w (createOrderHandler env (.ok req) w).2) =
      (req.Items.take m).map (fun l => (l.ProductID, negInt l.Quantity)) := by
  have hl := forall₂_enumFrom_length env w.products req.Items snaps 0 hvalid
  have key : (createOrderHandler env (.ok req) w).1 = persistenceError e ∧
      (createOrderHandler env (.ok req) w).2.orders = w.orders ∧
      (createOrderHandler env (.ok req) w).2.products =
        applyDecrements w.products (req.Items.take m) ∧
      stockCalls (newEvents w (createOrderHandler env (.ok req) w).2) =
        (req.Items.take m).map (fun l => (l.ProductID, negInt l.Quantity)) := by
    rcases hfail with ⟨hm, hh⟩ | ⟨hh, hm, hpre, hi⟩ | ⟨hh, hm, hpre, hc⟩
    · subst hm
      rw [handler_headerErr env req w snaps e hvalid hbegin hh, newEvents_append]
      simp [applyDecrements, stockCalls_append, stockCalls_snapshotEvents, stockCalls]
    · obtain ⟨line, post, hsplit, _⟩ := list_split_at req.Items m hm
      have hlen : (req.Items.take m).length = m := by
        rw [List.length_take]; omega
      obtain ⟨s1, p, hl1, hrun⟩ := handler_itemErr env req w snaps (req.Items.take m) line
        post e hvalid hsplit hbegin hh (by rw [hlen]; exact hpre) (by rw [hlen]; exact hi)
      rw [hrun, newEvents_append]
      simp [stockCalls_append, stockCalls_snapshotEvents, stockCalls,
        stockCalls_itemEvents, map_pricedItems _ _ hl1.symm, headerEvents]
    · subst hm
      rw [handler_commitErr env req w snaps e hvalid hbegin hh hpre hc, newEvents_append]
      simp [stockCalls_append, stockCalls_snapshotEvents, stockCalls,
        stockCalls_itemEvents, map_pricedItems _ _ hl, headerEvents]
  obtain ⟨h1, h2, h3, h4⟩ := key
  refine ⟨h1, h2, h3, ?_, h4⟩
  intro id
  rw [h3]
  exact stockOf_applyDecrements _ _ _

/-- Witness of C7: in a cart of three lines the insert of the second item fails; the
orders store is unchanged and the decrement of the first item stays applied. -/
theorem persistenceError_rollback_witness :
    (createOrderHandler (Env.itemFailsAt 1 1 "insert failed") (.ok threeLineCart)
      exampleWorld).1 = persistenceError "insert failed" ∧
    (createOrderHandler (Env.itemFailsAt 1 1 "insert failed") (.ok threeLineCart)
      exampleWorld).2.orders = exampleWorld.orders ∧
    stockOf (createOrderHandler (Env.itemFailsAt 1 1 "insert failed") (.ok threeLineCart)
      exampleWorld).2.products 42 = some 3 ∧
    stockCalls (newEvents exampleWorld
      (createOrderHandler (Env.itemFailsAt 1 1 "insert failed") (.ok threeLineCart)
        exampleWorld).2) = [(42, -2)] := by
  have hv : CartValid (Env.itemFailsAt 1 1 "insert failed") exampleWorld.products
      threeLineCart.Items
      [{ ID := 42, Price := 999 / 100, StockQuantity := 5 },
       { ID := 42, Price := 999 / 100, StockQuantity := 5 },
       { ID := 42, Price := 999 / 100, StockQuantity := 5 }] :=
    List.Forall₂.cons ⟨rfl, rfl, by decide⟩ (List.Forall₂.cons ⟨rfl, rfl, by decide⟩
      (List.Forall₂.cons ⟨rfl, rfl, by decide⟩ List.Forall₂.nil))
  obtain ⟨h1, h2, _, h4, h5⟩ := persistenceError_rollback (Env.itemFailsAt 1 1 "insert failed")
    threeLineCart exampleWorld _ 1 "insert failed" hv rfl
    (Or.inr (Or.inl ⟨rfl, by decide, fun k hk => by interval_cases k; exact ⟨rfl, rfl⟩, rfl⟩))
  refine ⟨h1, h2, ?_, ?_⟩
  · rw [h4]; decide
  · rw [h5]; decide

/-- The status code against the log of the run: 201 exactly when the run logged a
successful commit, 500 exactly when it logged a failed call to the orders store or a
failed stock-adjust call, 400 exactly when the body does not decode or some cart line
fails validation. -/
theorem status_codes_log (env : Env) (body : Except String CreateOrderRequest) (w : World α) :
    ((createOrderHandler env body w).1.status = 201 ↔
      (newEvents w (createOrderHandler env body w).2).any Event.isCommit = true) ∧
    ((createOrderHandler env body w).1.status = 400 ↔
      ((∃ e, body = .error e) ∨
        ∃ req, body = .ok req ∧ ∃ il ∈ req.Items.enum,
          LineUnknown env w.products il ∨ ∃ p, LineShort env w.products il p)) ∧
    ((createOrderHandler env body w).1.status = 500 ↔
      (newEvents w (createOrderHandler env body w).2).any Event.isFailedWrite = true) ∧
    ((createOrderHandler env body w).1.status = 201 →
      ∃ total, (createOrderHandler env body w).1 =
          .created "Order created successfully" env.newOrderID total ∧
        (createOrderHandler env body w).2.orders.orders ≠ w.orders.orders) ∧
    ((createOrderHandler env body w).1.status ≠ 201 →
      (createOrderHandler env body w).2.orders = w.orders) := by
  cases body with
  | error e =>
    simp [createOrderHandler, Response.status, newEvents]
  | ok req =>
    have hcase := handler_runCase env req w
    generalize createOrderHandler env (.ok req) w = out at hcase
    have hmem : ∀ (pre : List CartLine) (line : CartLine) (post : List CartLine),
        req.Items = pre ++ line :: post →
        (LineUnknown env w.products (pre.length, line) ∨
          ∃ p, LineShort env w.products (pre.length, line) p) →
        ((∃ e, (Except.ok req : Except String CreateOrderRequest) = .error e) ∨
          ∃ r, (Except.ok req : Except String CreateOrderRequest) = .ok r ∧
            ∃ il ∈ r.Items.enum,
              LineUnknown env w.products il ∨ ∃ p, LineShort env w.products il p) := by
      intro pre line post hsplit hf
      exact Or.inr ⟨req, rfl, (pre.length, line), by rw [hsplit]; exact mem_enum_split _ _ _, hf⟩
    have hvalid : ∀ snaps, CartValid env w.products req.Items snaps →
        ¬ ((∃ e, (Except.ok req : Except String CreateOrderRequest) = .error e) ∨
          ∃ r, (Except.ok req : Except String CreateOrderRequest) = .ok r ∧
            ∃ il ∈ r.Items.enum,
              LineUnknown env w.products il ∨ ∃ p, LineShort env w.products il p) := by
      intro snaps hv hn
      rcases hn with ⟨e, he⟩ | ⟨r, hr, hf⟩
      · cases he
      · cases hr
        exact cartValid_no_failure env w.products req.Items snaps hv hf
    cases hcase with
    | unknown pre line post snaps hsplit hv hu =>
      have := hmem pre line post hsplit (Or.inl hu)
      refine ⟨?_, iff_of_true (by simp [productUnavailable, Response.status]) this, ?_, ?_, ?_⟩ <;>
        simp [newEvents_append, productUnavailable, Response.status, List.any_append,
          any_snapshotEvents_isCommit, any_snapshotEvents_isFailedWrite, Event.isCommit,
          Event.isFailedWrite, any_itemEvents_isCommit, any_itemEvents_isFailedWrite,
          headerEvents]
    | short pre line post snaps p hsplit hv hs =>
      have := hmem pre line post hsplit (Or.inr ⟨p, hs⟩)
      refine ⟨?_, iff_of_true (by simp [insufficientStock, Response.status]) this, ?_, ?_, ?_⟩ <;>
        simp [newEvents_append, insufficientStock, Response.status, List.any_append,
          any_snapshotEvents_isCommit, any_snapshotEvents_isFailedWrite, Event.isCommit,
          Event.isFailedWrite, any_itemEvents_isCommit, any_itemEvents_isFailedWrite,
          headerEvents]
    | beginErr snaps e hv hb =>
      have := hvalid snaps hv
      refine ⟨?_, iff_of_false (by simp [persistenceError, Response.status]) this, ?_, ?_, ?_⟩ <;>
        simp [newEvents_append, persistenceError, Response.status, List.any_append,
          any_snapshotEvents_isCommit, any_snapshotEvents_isFailedWrite, Event.isCommit,
          Event.isFailedWrite, any_itemEvents_isCommit, any_itemEvents_isFailedWrite,
          headerEvents]
    | headerErr snaps e hv hb hh =>
      have := hvalid snaps hv
      refine ⟨?_, iff_of_false (by simp [persistenceError, Response.status]) this, ?_, ?_, ?_⟩ <;>
        simp [newEvents_append, persistenceError, Response.status, List.any_append,
          any_snapshotEvents_isCommit, any_snapshotEvents_isFailedWrite, Event.isCommit,
          Event.isFailedWrite, any_itemEvents_isCommit, any_itemEvents_isFailedWrite,
          headerEvents]
    | itemErr snaps pre line post s1 p e hv hsplit hl hb hh hpre hi =>
      have := hvalid snaps hv
      refine ⟨?_, iff_of_false (by simp [persistenceError, Response.status]) this, ?_, ?_, ?_⟩ <;>
        simp [newEvents_append, persistenceError, Response.status, List.any_append,
          any_snapshotEvents_isCommit, any_snapshotEvents_isFailedWrite, Event.isCommit,
          Event.isFailedWrite, any_itemEvents_isCommit, any_itemEvents_isFailedWrite,
          headerEvents]
    | stockErr snaps pre line post s1 p hv hsplit hl hb hh hpre hi hs =>
      have := hvalid snaps hv
      refine ⟨?_, iff_of_false (by simp [stockUpdateFailed, Response.status]) this, ?_, ?_, ?_⟩ <;>
        simp [newEvents_append, stockUpdateFailed, Response.status, List.any_append,
          any_snapshotEvents_isCommit, any_snapshotEvents_isFailedWrite, Event.isCommit,
          Event.isFailedWrite, any_itemEvents_isCommit, any_itemEvents_isFailedWrite,
          headerEvents]
    | commitErr snaps e hv hb hh hits hc =>
      have := hvalid snaps hv
      refine ⟨?_, iff_of_false (by simp [persistenceError, Response.status]) this, ?_, ?_, ?_⟩ <;>
        simp [newEvents_append, persistenceError, Response.status, List.any_append,
          any_snapshotEvents_isCommit, any_snapshotEvents_isFailedWrite, Event.isCommit,
          Event.isFailedWrite, any_itemEvents_isCommit, any_itemEvents_isFailedWrite,
          headerEvents]
    | ok snaps hv hb hh hits hc =>
      have := hvalid snaps hv
      refine ⟨?_, iff_of_false (by simp [persistenceError, Response.status]) this, ?_, ?_, ?_⟩ <;>
        simp [newEvents_append, persistenceError, Response.status, List.any_append,
          any_snapshotEvents_isCommit, any_snapshotEvents_isFailedWrite, Event.isCommit,
          Event.isFailedWrite, any_itemEvents_isCommit, any_itemEvents_isFailedWrite,
          headerEvents]

/-- C9: when `createOrderHandler` answers 201, every cart line passed validation with
some snapshot, the orders store gained exactly one header (the generated id, the cart's
user, status `pending`, the returned total) and exactly one item per cart line, the
`i`-th carrying the `i`-th line's product, its quantity and its snapshot's price; the
header total is the sum, in order, of the new items' price times quantity. -/
theorem persisted_order (env : Env) (req : CreateOrderRequest) (w : World α)
    (hok : (createOrderHandler env (.ok req) w).1.status = 201) :
    ∃ snaps : List (Product α),
      CartValid env w.products req.Items snaps ∧
      (createOrderHandler env (.ok req) w).1 =
        .created "Order created successfully" env.newOrderID
          (sumInCartOrder req.Items snaps) ∧
      (createOrderHandler env (.ok req) w).2.orders.orders = w.orders.orders ++
        [{ id := env.newOrderID, user_id := req.UserID, status := "pending",
           total_amount := sumInCartOrder req.Items snaps }] ∧
      (createOrderHandler env (.ok req) w).2.orders.order_items = w.orders.order_items ++
        itemRows env.newOrderID req.Items snaps ∧
      (itemRows env.newOrderID req.Items snaps).length = req.Items.length ∧
      sumInCartOrder req.Items snaps =
        (itemRows env.newOrderID req.Items snaps).foldl
          (fun acc r => acc + r.price * ((r.quantity : Int) : α)) 0 := by
  have hcase := handler_runCase env req w
  generalize createOrderHandler env (.ok req) w = out at hcase hok
  cases hcase with
  | unknown pre line post snaps hsplit hv hu =>
    simp [productUnavailable, Response.status] at hok
  | short pre line post snaps p hsplit hv hs =>
    simp [insufficientStock, Response.status] at hok
  | beginErr snaps e hv hb => simp [persistenceError, Response.status] at hok
  | headerErr snaps e hv hb hh => simp [persistenceError, Response.status] at hok
  | itemErr snaps pre line post s1 p e hv hsplit hl hb hh hpre hi =>
    simp [persistenceError, Response.status] at hok
  | stockErr snaps pre line post s1 p hv hsplit hl hb hh hpre hi hs =>
    simp [stockUpdateFailed, Response.status] at hok
  | commitErr snaps e hv hb hh hits hc => simp [persistenceError, Response.status] at hok
  | ok snaps hv hb hh hits hc =>
    have hl := forall₂_enumFrom_length env w.products req.Items snaps 0 hv
    exact ⟨snaps, hv, rfl, rfl, rfl, itemRows_length _ _ _ hl,
      sumFrom_itemRows env.newOrderID req.Items snaps 0⟩

/-- Witness of C9: the example cart is persisted as one header and one item. -/
theorem persisted_order_witness :
    (createOrderHandler (Env.ok 1) (.ok exampleCart) exampleWorld).1.status = 201 ∧
    ∃ snaps : List (Product ℚ),
      CartValid (Env.ok 1) exampleWorld.products exampleCart.Items snaps ∧
      (createOrderHandler (Env.ok 1) (.ok exampleCart) exampleWorld).1 =
        .created "Order created successfully" (Env.ok 1).newOrderID
          (sumInCartOrder exampleCart.Items snaps) ∧
      (createOrderHandler (Env.ok 1) (.ok exampleCart) exampleWorld).2.orders.orders =
        exampleWorld.orders.orders ++
        [{ id := (Env.ok 1).newOrderID, user_id := exampleCart.UserID, status := "pending",
           total_amount := sumInCartOrder exampleCart.Items snaps }] ∧
      (createOrderHandler (Env.ok 1) (.ok exampleCart) exampleWorld).2.orders.order_items =
        exampleWorld.orders.order_items ++
        itemRows (Env.ok 1).newOrderID exampleCart.Items snaps ∧
      (itemRows (Env.ok 1).newOrderID exampleCart.Items snaps).length =
        exampleCart.Items.length ∧
      sumInCartOrder exampleCart.Items snaps =
        (itemRows (Env.ok 1).newOrderID exampleCart.Items snaps).foldl
          (fun acc r => acc + r.price * ((r.quantity : Int) : ℚ)) 0 :=
  have h : (createOrderHandler (Env.ok 1) (.ok exampleCart) exampleWorld).1.status = 201 := by
    decide
  ⟨h, persisted_order (Env.ok 1) exampleCart exampleWorld h⟩

end StoreFailures

/-! ## Two runs on one product -/

section Race

variable {α : Type}

theorem negInt_eq_neg (q : Int) (hr : InInt64 q) (hpos : 0 < q) : negInt q = -q := by
  unfold InInt64 at hr
  unfold negInt wrapInt64
  omega

theorem stockOf_some (products : List (Product α)) (id s : Int)
    (h : stockOf products id = some s) :
    ∃ p, getProductHandler products id = some p ∧ p.StockQuantity = s := by
  unfold stockOf at h
  cases hf : getProductHandler products id with
  | none => rw [hf] at h; cases h
  | some p => rw [hf] at h; exact ⟨p, rfl, by simpa using h⟩

variable [Zero α] [Add α] [Mul α] [IntCast α]

/-- C10: two runs of `createOrderHandler` for the same product, each asking for the whole
stock `s > 0` of the product, scheduled so that both read the stock snapshot before
either decrement lands, both answer 201 and leave the product with the negative stock
`-s`; run one after the other, the second is answered `InsufficientStock`. -/
theorem concurrent_orders_overdraw (w : World α) (pid s userA userB idA idB : Int)
    (hstock : stockOf w.products pid = some s) (hpos : 0 < s) (hrange : InInt64 s) :
    (bothValidateFirst (Env.ok idA) (Env.ok idB)
      { UserID := userA, Items := [{ ProductID := pid, Quantity := s }] }
      { UserID := userB, Items := [{ ProductID := pid, Quantity := s }] } w).1.status = 201 ∧
    (bothValidateFirst (Env.ok idA) (Env.ok idB)
      { UserID := userA, Items := [{ ProductID := pid, Quantity := s }] }
      { UserID := userB, Items := [{ ProductID := pid, Quantity := s }] } w).2.1.status = 201 ∧
    stockOf (bothValidateFirst (Env.ok idA) (Env.ok idB)
      { UserID := userA, Items := [{ ProductID := pid, Quantity := s }] }
      { UserID := userB, Items := [{ ProductID := pid, Quantity := s }] } w).2.2.products pid =
        some (-s) ∧
    -s < 0 ∧
    (oneAfterTheOther (Env.ok idA) (Env.ok idB)
      { UserID := userA, Items := [{ ProductID := pid, Quantity := s }] }
      { UserID := userB, Items := [{ ProductID := pid, Quantity := s }] } w).1.status = 201 ∧
    (oneAfterTheOther (Env.ok idA) (Env.ok idB)
      { UserID := userA, Items := [{ ProductID := pid, Quantity := s }] }
      { UserID := userB, Items := [{ ProductID := pid, Quantity := s }] } w).2.1 =
        insufficientStock pid := by
  obtain ⟨p, hf, hp⟩ := stockOf_some w.products pid s hstock
  have hneg := negInt_eq_neg s hrange hpos
  have hfound : (getProductHandler w.products pid).isSome = true := by simp [hf]
  have hvA : CartValid (Env.ok idA) w.products [{ ProductID := pid, Quantity := s }] [p] :=
    List.Forall₂.cons ⟨rfl, hf, by simp [hp]⟩ List.Forall₂.nil
  have hvB : CartValid (Env.ok idB) w.products [{ ProductID := pid, Quantity := s }] [p] :=
    List.Forall₂.cons ⟨rfl, hf, by simp [hp]⟩ List.Forall₂.nil
  have hA := validateItems_ok (Env.ok idA) [{ ProductID := pid, Quantity := s }] [p] 0 0 [] w hvA
  have hB := validateItems_ok (Env.ok idB) [{ ProductID := pid, Quantity := s }] [p] 0 0 []
    { w with trace := w.trace ++ snapshotEvents [{ ProductID := pid, Quantity := s }] [p] } hvB
  have hits : ∀ (id : Int) (k : Nat), k < ([] ++ pricedItems
      [({ ProductID := pid, Quantity := s } : CartLine)] [p]).length →
      (Env.ok id).insertItemErr k = none ∧ (Env.ok id).updateStockFails k = false :=
    fun _ _ _ => ⟨rfl, rfl⟩
  refine ⟨?_, ?_, ?_, by omega, ?_, ?_⟩
  · simp only [bothValidateFirst, hA, hB]
    rw [persistOrder_ok (Env.ok idA) _ _ _ _ rfl rfl (hits idA)
      (by simpa [pricedItems] using hfound) rfl]
    rfl
  · simp only [bothValidateFirst, hA, hB]
    rw [persistOrder_ok (Env.ok idA) _ _ _ _ rfl rfl (hits idA)
      (by simpa [pricedItems] using hfound) rfl]
    rw [persistOrder_ok (Env.ok idB) _ _ _ _ rfl rfl (hits idB)
      (by simpa [pricedItems, applyItemDecrements, isSome_update] using hfound) rfl]
    rfl
  · simp only [bothValidateFirst, hA, hB]
    rw [persistOrder_ok (Env.ok idA) _ _ _ _ rfl rfl (hits idA)
      (by simpa [pricedItems] using hfound) rfl]
    rw [persistOrder_ok (Env.ok idB) _ _ _ _ rfl rfl (hits idB)
      (by simpa [pricedItems, applyItemDecrements, isSome_update] using hfound) rfl]
    simp only [pricedItems, applyItemDecrements, List.zipWith_cons_cons, List.zipWith_nil_left,
      List.nil_append, List.foldl_cons, List.foldl_nil, stockOf_update, hstock, hneg,
      Option.map_some', if_true]
    congr 1
    omega
  · simp only [oneAfterTheOther]
    rw [handler_ok (Env.ok idA) _ w [p] hvA rfl rfl (fun _ _ => ⟨rfl, rfl⟩) rfl]
    rfl
  · simp only [oneAfterTheOther]
    rw [handler_ok (Env.ok idA) _ w [p] hvA rfl rfl (fun _ _ => ⟨rfl, rfl⟩) rfl]
    have hs2 : stockOf (applyDecrements w.products [{ ProductID := pid, Quantity := s }]) pid =
        some 0 := by
      rw [stockOf_applyDecrements, hstock]
      simp [deltaFor, hneg]
    obtain ⟨q, hq, hq0⟩ := stockOf_some _ pid 0 hs2
    rw [handler_short (Env.ok idB) _ _ [] { ProductID := pid, Quantity := s } [] [] q rfl
      List.Forall₂.nil ⟨rfl, hq, by simp [hq0, hpos]⟩]

/-- Witness of C10: two orders for all 5 units of product 42 leave its stock at -5. -/
theorem concurrent_orders_overdraw_witness :
    (bothValidateFirst (Env.ok 1) (Env.ok 2)
      { UserID := 7, Items := [{ ProductID := 42, Quantity := 5 }] }
      { UserID := 8, Items := [{ ProductID := 42, Quantity := 5 }] }
      exampleWorld).2.1.status = 201 ∧
    stockOf (bothValidateFirst (Env.ok 1) (Env.ok 2)
      { UserID := 7, Items := [{ ProductID := 42, Quantity := 5 }] }
      { UserID := 8, Items := [{ ProductID := 42, Quantity := 5 }] }
      exampleWorld).2.2.products 42 = some (-5) := by
  obtain ⟨_, h2, h3, _⟩ := concurrent_orders_overdraw exampleWorld 42 5 7 8 1 2
    (by decide) (by decide) (by decide)
  exact ⟨h2, h3⟩

end Race

/-! ## Arithmetic of the model -/

section Arithmetic

/-- Go's unary minus is the mathematical negation on every `int` except the least one. -/
theorem negInt_eq_neg_of_ne_min (q : Int) (hr : InInt64 q) (hmin : q ≠ -2 ^ 63) :
    negInt q = -q := by
  unfold InInt64 at hr
  unfold negInt wrapInt64
  omega

/-- Go's unary minus maps the least `int` to itself. -/
theorem negInt_min : negInt (-2 ^ 63) = -2 ^ 63 := by decide

/-- In exact arithmetic the sum in cart order is the sum of the list of line totals. -/
theorem sumInCartOrder_eq_sum {α : Type} [Ring α] (items : List CartLine)
    (snaps : List (Product α)) :
    sumInCartOrder items snaps =
      (List.zipWith (fun (line : CartLine) (p : Product α) =>
        p.Price * ((line.Quantity : Int) : α)) items snaps).sum := by
  simp [sumInCartOrder, sumFrom, List.sum_eq_foldl]

end Arithmetic

/-! ## Carts the validation loop lets through -/

section LenientCarts

variable {α : Type} [Zero α] [Add α] [Mul α] [IntCast α]

/-- C12: `createOrderHandler` does not reject an empty cart: for a decoded request with
no items and a working orders store it answers 201 with `total_amount` 0, persists one
order header with status `pending` and no item, and calls neither the snapshot read nor
the stock adjustment: its only collaborator calls are begin, the header insert, commit
and the deferred rollback. -/
theorem empty_cart_accepted (env : Env) (req : CreateOrderRequest) (w : World α)
    (hempty : req.Items = [])
    (hbegin : env.beginErr = none) (hheader : env.insertOrderErr = none)
    (hcommit : env.commitErr = none) :
    createOrderHandler env (.ok req) w =
      (.created "Order created successfully" env.newOrderID 0,
        { orders :=
            { orders := w.orders.orders ++
                [{ id := env.newOrderID, user_id := req.UserID, status := "pending",
                   total_amount := 0 }],
              order_items := w.orders.order_items },
          products := w.products,
          trace := w.trace ++
            [.begin true, .insertOrder req.UserID "pending" 0 (some env.newOrderID),
             .commit true, .rollback] }) := by
  have hv : CartValid env w.products req.Items [] := by
    rw [hempty]; exact List.Forall₂.nil
  rw [handler_ok env req w [] hv hbegin hheader
    (fun k hk => by rw [hempty] at hk; exact absurd hk (Nat.not_lt_zero k)) hcommit]
  simp [hempty, sumInCartOrder, sumFrom, itemRows, applyDecrements, snapshotEvents,
    headerEvents, headerRow, itemEvents, pricedItems]

/-- Witness of C12: user 7 sends an empty cart. -/
theorem empty_cart_accepted_witness :
    (createOrderHandler (Env.ok 1) (.ok { UserID := 7, Items := [] }) exampleWorld).1 =
      .created "Order created successfully" 1 0 ∧
    stockCalls (newEvents exampleWorld
      (createOrderHandler (Env.ok 1) (.ok { UserID := 7, Items := [] }) exampleWorld).2) = [] := by
  rw [empty_cart_accepted (Env.ok 1) { UserID := 7, Items := [] } exampleWorld rfl rfl rfl rfl]
  exact ⟨rfl, by decide⟩

/-- C14: validation checks each cart line on its own. For a product with stock `s` and a
cart of two lines for that product with quantities `q1 ≤ s` and `q2 ≤ s` whose sum exceeds
`s`, the handler answers 201, persists both items, and issues the two decrements `-q1`
and `-q2`, whose total exceeds the stock reported at validation time and leaves the
product with a negative stock. -/
theorem duplicate_lines_overdraw (w : World α) (pid s q1 q2 user orderID : Int)
    (hstock : stockOf w.products pid = some s)
    (h1 : q1 ≤ s) (h2 : q2 ≤ s) (hsum : s < q1 + q2)
    (hr1 : InInt64 q1) (hr2 : InInt64 q2) :
    (createOrderHandler (Env.ok orderID)
      (.ok { UserID := user, Items := [{ ProductID := pid, Quantity := q1 },
                                       { ProductID := pid, Quantity := q2 }] })
      w).1.status = 201 ∧
    (∃ p : Product α, getProductHandler w.products pid = some p ∧ p.StockQuantity = s ∧
      (createOrderHandler (Env.ok orderID)
        (.ok { UserID := user, Items := [{ ProductID := pid, Quantity := q1 },
                                         { ProductID := pid, Quantity := q2 }] })
        w).2.orders.order_items = w.orders.order_items ++
          [{ order_id := orderID, product_id := pid, quantity := q1, price := p.Price },
           { order_id := orderID, product_id := pid, quantity := q2, price := p.Price }]) ∧
    stockCalls (newEvents w (createOrderHandler (Env.ok orderID)
      (.ok { UserID := user, Items := [{ ProductID := pid, Quantity := q1 },
                                       { ProductID := pid, Quantity := q2 }] })
      w).2) = [(pid, -q1), (pid, -q2)] ∧
    stockOf (createOrderHandler (Env.ok orderID)
      (.ok { UserID := user, Items := [{ ProductID := pid, Quantity := q1 },
                                       { ProductID := pid, Quantity := q2 }] })
      w).2.products pid = some (s - (q1 + q2)) ∧
    s - (q1 + q2) < 0 := by
  obtain ⟨p, hf, hp⟩ := stockOf_some w.products pid s hstock
  have hn1 : negInt q1 = -q1 := negInt_eq_neg q1 hr1 (by omega)
  have hn2 : negInt q2 = -q2 := negInt_eq_neg q2 hr2 (by omega)
  have hv : CartValid (Env.ok orderID) w.products
      [{ ProductID := pid, Quantity := q1 }, { ProductID := pid, Quantity := q2 }] [p, p] :=
    List.Forall₂.cons ⟨rfl, hf, by simp [hp, h1]⟩
      (List.Forall₂.cons ⟨rfl, hf, by simp [hp, h2]⟩ List.Forall₂.nil)
  rw [handler_ok (Env.ok orderID) _ w [p, p] hv rfl rfl (fun _ _ => ⟨rfl, rfl⟩) rfl]
  refine ⟨rfl, ⟨p, hf, hp, ?_⟩, ?_, ?_, by omega⟩
  · simp [itemRows, Env.ok]
  · rw [newEvents_append]
    simp [stockCalls_append, stockCalls_snapshotEvents, stockCalls_itemEvents, headerEvents,
      stockCalls, pricedItems, hn1, hn2]
  · simp only [stockOf_applyDecrements, hstock, deltaFor, Option.map_some']
    simp [hn1, hn2]
    omega

/-- Witness of C14: two lines asking for 3 and 4 of product 42, with 5 in stock. -/
theorem duplicate_lines_overdraw_witness :
    (createOrderHandler (Env.ok 1) (.ok twoLinesOneProductCart) exampleWorld).1.status = 201 ∧
    stockCalls (newEvents exampleWorld
      (createOrderHandler (Env.ok 1) (.ok twoLinesOneProductCart) exampleWorld).2) =
      [(42, -3), (42, -4)] ∧
    stockOf (createOrderHandler (Env.ok 1) (.ok twoLinesOneProductCart)
      exampleWorld).2.products 42 = some (5 - (3 + 4)) := by
  obtain ⟨h1, _, h3, h4, _⟩ := duplicate_lines_overdraw exampleWorld 42 5 3 4 7 1
    (by decide) (by decide) (by decide) (by decide) (by decide) (by decide)
  exact ⟨h1, h3, h4⟩

end LenientCarts

/-! ## The request body reader -/

section BodyReader

variable {β : Type}

theorem jsonReader_Read_snd (jr : jsonReader β) (lenP : Nat) : (jr.Read lenP).2 = jr := rfl

theorem jsonReader_Read_nonempty (jr : jsonReader β) (lenP : Nat) (h : jr.data ≠ []) :
    (jr.Read lenP).1 =
      { n := min lenP jr.data.length, written := jr.data.take (min lenP jr.data.length),
        err := none } := by
  have hl : jr.data.length ≠ 0 := by
    intro h0; exact h (List.length_eq_zero.mp h0)
  simp [jsonReader.Read, jsonReader.readBody, hl]

/-- Every call reads the data from its beginning. -/
theorem readCalls_eq_map (jr : jsonReader β) (bufs : List Nat) :
    readCalls jr bufs = bufs.map (fun lenP => (jr.Read lenP).1) := by
  induction bufs with
  | nil => rfl
  | cons lenP rest ih => simp [readCalls, jsonReader_Read_snd, ih]

/-- A reader over non-empty data never returns `io.EOF`, and with non-empty buffers every
call delivers at least one byte. -/
theorem readCalls_never_EOF (jr : jsonReader β) (bufs : List Nat) (h : jr.data ≠ [])
    (hb : ∀ lenP ∈ bufs, 0 < lenP) :
    ∀ r ∈ readCalls jr bufs, r.err = none ∧ 0 < r.n := by
  intro r hr
  rw [readCalls_eq_map, List.mem_map] at hr
  obtain ⟨lenP, hmem, rfl⟩ := hr
  rw [jsonReader_Read_nonempty jr lenP h]
  have hl : 0 < jr.data.length := List.length_pos.mpr h
  exact ⟨rfl, by simp only [Nat.lt_min]; exact ⟨hb lenP hmem, hl⟩⟩

/-- C13 fails on the code: two `Read` calls with 512-byte buffers on the reader built
from the 15 bytes of the JSON encoding of `quantity: -2` both return the 15 bytes with a
nil error, so the bytes are delivered twice and the second call is not `(0, io.EOF)`;
had the method body's assignment reached the reader, the second call would be
`(0, io.EOF)`. -/
theorem jsonReader_delivers_data_again :
    readCalls ({ data := quantityMinusTwoJSON } : jsonReader Char) [512, 512] =
      [{ n := 15, written := quantityMinusTwoJSON, err := none },
       { n := 15, written := quantityMinusTwoJSON, err := none }] ∧
    delivered (readCalls ({ data := quantityMinusTwoJSON } : jsonReader Char) [512, 512]) =
      quantityMinusTwoJSON ++ quantityMinusTwoJSON ∧
    delivered (readCalls ({ data := quantityMinusTwoJSON } : jsonReader Char) [512, 512]) ≠
      quantityMinusTwoJSON ∧
    readCallsKeepingData ({ data := quantityMinusTwoJSON } : jsonReader Char) [512, 512] =
      [{ n := 15, written := quantityMinusTwoJSON, err := none },
       { n := 0, written := [], err := some ReadErr.EOF }] := by
  decide

end BodyReader

/-! ## The status code against the behaviour of the collaborators -/

section StatusAndFailures

variable {α : Type} [Zero α] [Add α] [Mul α] [IntCast α]

/-- The status code of a run on a decoded request, against what the collaborators do:
201 exactly when every line passes validation and every call of the transaction part
succeeds, 500 exactly when every line passes validation and some call of the transaction
part fails. -/
theorem runCase_status_env (env : Env) (req : CreateOrderRequest) (w : World α)
    (out : Response α × World α) (h : RunCase env req w out) :
    (out.1.status = 201 ↔
      ((¬ ∃ il ∈ req.Items.enum,
          LineUnknown env w.products il ∨ ∃ p, LineShort env w.products il p) ∧
        WritesSucceed env req.Items.length)) ∧
    (out.1.status = 500 ↔
      ((¬ ∃ il ∈ req.Items.enum,
          LineUnknown env w.products il ∨ ∃ p, LineShort env w.products il p) ∧
        ¬ WritesSucceed env req.Items.length)) := by
  cases h with
  | unknown pre line post snaps hsplit hv hu =>
    have hf : ∃ il ∈ req.Items.enum,
        LineUnknown env w.products il ∨ ∃ p, LineShort env w.products il p :=
      ⟨(pre.length, line), by rw [hsplit]; exact mem_enum_split _ _ _, Or.inl hu⟩
    exact ⟨iff_of_false (by simp [productUnavailable, Response.status]) (fun h => h.1 hf),
      iff_of_false (by simp [productUnavailable, Response.status]) (fun h => h.1 hf)⟩
  | short pre line post snaps p hsplit hv hs =>
    have hf : ∃ il ∈ req.Items.enum,
        LineUnknown env w.products il ∨ ∃ p, LineShort env w.products il p :=
      ⟨(pre.length, line), by rw [hsplit]; exact mem_enum_split _ _ _, Or.inr ⟨p, hs⟩⟩
    exact ⟨iff_of_false (by simp [insufficientStock, Response.status]) (fun h => h.1 hf),
      iff_of_false (by simp [insufficientStock, Response.status]) (fun h => h.1 hf)⟩
  | beginErr snaps e hv hb =>
    have hnf := cartValid_no_failure env w.products req.Items snaps hv
    have hnw : ¬ WritesSucceed env req.Items.length := by
      intro hw; rw [hw.1] at hb; cases hb
    exact ⟨iff_of_false (by simp [persistenceError, Response.status]) (fun h => hnw h.2),
      iff_of_true (by simp [persistenceError, Response.status]) ⟨hnf, hnw⟩⟩
  | headerErr snaps e hv hb hh =>
    have hnf := cartValid_no_failure env w.products req.Items snaps hv
    have hnw : ¬ WritesSucceed env req.Items.length := by
      intro hw; rw [hw.2.1] at hh; cases hh
    exact ⟨iff_of_false (by simp [persistenceError, Response.status]) (fun h => hnw h.2),
      iff_of_true (by simp [persistenceError, Response.status]) ⟨hnf, hnw⟩⟩
  | itemErr snaps pre line post s1 p e hv hsplit hl hb hh hpre hi =>
    have hnf := cartValid_no_failure env w.products req.Items snaps hv
    have hlt : pre.length < req.Items.length := by simp [hsplit]
    have hnw : ¬ WritesSucceed env req.Items.length := by
      intro hw
      have := (hw.2.2.1 pre.length hlt).1
      rw [this] at hi; cases hi
    exact ⟨iff_of_false (by simp [persistenceError, Response.status]) (fun h => hnw h.2),
      iff_of_true (by simp [persistenceError, Response.status]) ⟨hnf, hnw⟩⟩
  | stockErr snaps pre line post s1 p hv hsplit hl hb hh hpre hi hs =>
    have hnf := cartValid_no_failure env w.products req.Items snaps hv
    have hlt : pre.length < req.Items.length := by simp [hsplit]
    have hnw : ¬ WritesSucceed env req.Items.length := by
      intro hw
      have := (hw.2.2.1 pre.length hlt).2
      rw [this] at hs; cases hs
    exact ⟨iff_of_false (by simp [stockUpdateFailed, Response.status]) (fun h => hnw h.2),
      iff_of_true (by simp [stockUpdateFailed, Response.status]) ⟨hnf, hnw⟩⟩
  | commitErr snaps e hv hb hh hits hc =>
    have hnf := cartValid_no_failure env w.products req.Items snaps hv
    have hnw : ¬ WritesSucceed env req.Items.length := by
      intro hw; rw [hw.2.2.2] at hc; cases hc
    exact ⟨iff_of_false (by simp [persistenceError, Response.status]) (fun h => hnw h.2),
      iff_of_true (by simp [persistenceError, Response.status]) ⟨hnf, hnw⟩⟩
  | ok snaps hv hb hh hits hc =>
    have hnf := cartValid_no_failure env w.products req.Items snaps hv
    have hw : WritesSucceed env req.Items.length := ⟨hb, hh, hits, hc⟩
    exact ⟨iff_of_true (by simp [Response.status]) ⟨hnf, hw⟩,
      iff_of_false (by simp [Response.status]) (fun h => h.2 hw)⟩

/-- C8: the status code written by `createOrderHandler` is 201 exactly when every cart
line passes validation and begin, every insert, every stock-adjust call and commit
succeed, which is exactly when the run committed the order; 400 exactly when the body does
not decode or some cart line fails validation; 500 exactly when every line passes
validation and a call to the orders store (begin, insert, commit) or a stock-adjust call
fails, which is exactly when the run made such a call and it failed. A 201 response
carries the message, the id the store generated for the order and the total amount, and
every other run leaves the orders store as it was. -/
theorem status_codes (env : Env) (body : Except String CreateOrderRequest) (w : World α) :
    ((createOrderHandler env body w).1.status = 201 ↔
      ∃ req, body = .ok req ∧
        (¬ ∃ il ∈ req.Items.enum,
          LineUnknown env w.products il ∨ ∃ p, LineShort env w.products il p) ∧
        WritesSucceed env req.Items.length) ∧
    ((createOrderHandler env body w).1.status = 201 ↔
      (newEvents w (createOrderHandler env body w).2).any Event.isCommit = true) ∧
    ((createOrderHandler env body w).1.status = 400 ↔
      ((∃ e, body = .error e) ∨
        ∃ req, body = .ok req ∧ ∃ il ∈ req.Items.enum,
          LineUnknown env w.products il ∨ ∃ p, LineShort env w.products il p)) ∧
    ((createOrderHandler env body w).1.status = 500 ↔
      ∃ req, body = .ok req ∧
        (¬ ∃ il ∈ req.Items.enum,
          LineUnknown env w.products il ∨ ∃ p, LineShort env w.products il p) ∧
        ¬ WritesSucceed env req.Items.length) ∧
    ((createOrderHandler env body w).1.status = 500 ↔
      (newEvents w (createOrderHandler env body w).2).any Event.isFailedWrite = true) ∧
    ((createOrderHandler env body w).1.status = 201 →
      ∃ total, (createOrderHandler env body w).1 =
          .created "Order created successfully" env.newOrderID total ∧
        (createOrderHandler env body w).2.orders.orders ≠ w.orders.orders) ∧
    ((createOrderHandler env body w).1.status ≠ 201 →
      (createOrderHandler env body w).2.orders = w.orders) := by
  obtain ⟨h1, h2, h3, h4, h5⟩ := status_codes_log env body w
  refine ⟨?_, h1, h2, ?_, h3, h4, h5⟩
  · cases body with
    | error e =>
      refine iff_of_false (by simp [createOrderHandler, Response.status]) ?_
      rintro ⟨req, hreq, _⟩
      cases hreq
    | ok req =>
      rw [(runCase_status_env env req w _ (handler_runCase env req w)).1]
      constructor
      · intro h; exact ⟨req, rfl, h⟩
      · rintro ⟨r, hr, h⟩; cases hr; exact h
  · cases body with
    | error e =>
      refine iff_of_false (by simp [createOrderHandler, Response.status]) ?_
      rintro ⟨req, hreq, _⟩
      cases hreq
    | ok req =>
      rw [(runCase_status_env env req w _ (handler_runCase env req w)).2]
      constructor
      · intro h; exact ⟨req, rfl, h⟩
      · rintro ⟨r, hr, h⟩; cases hr; exact h

end StatusAndFailures

/-! ## The total in float64 -/

section Float64Total

set_option maxRecDepth 20000

/-- Witness of the amended C1, in float64: the cart of one line of quantity 2 at price
9.99 gives 19.98. -/
theorem createOrder_total_witness :
    CartValid (Env.ok 1) float64World.products exampleCart.Items
      [{ ID := 42, Price := nineNinetyNine, StockQuantity := 5 }] ∧
    (createOrderHandler (Env.ok 1) (.ok exampleCart) float64World).1 =
      .created "Order created successfully" 1 nineteenNinetyEight := by
  have hv : CartValid (Env.ok 1) float64World.products exampleCart.Items
      [{ ID := 42, Price := nineNinetyNine, StockQuantity := 5 }] :=
    List.Forall₂.cons ⟨rfl, rfl, by decide⟩ List.Forall₂.nil
  refine ⟨hv, ?_⟩
  rw [createOrder_total (Env.ok 1) exampleCart float64World _ hv rfl rfl
    (fun _ _ => rfl) (fun _ _ => rfl) rfl]
  decide

/-- C1 as stated fails: for the cart of one line of quantity 3 at the float64 price 0.1,
with enough stock and no failing call, the `total_amount` returned is the float64
0.30000000000000004, which is not the exact sum of snapshot price times quantity: the
exact product is 21617278211378382 / 2^56 and the returned total is
21617278211378384 / 2^56. -/
theorem createOrder_total_counterexample :
    CartValid (Env.ok 1) float64World.products threeTenthsCart.Items
      [{ ID := 43, Price := tenth, StockQuantity := 5 }] ∧
    (createOrderHandler (Env.ok 1) (.ok threeTenthsCart) float64World).1 =
      .created "Order created successfully" 1 aboveThreeTenths ∧
    exactSum threeTenthsCart.Items [{ ID := 43, Price := tenth, StockQuantity := 5 }] =
      some (21617278211378382 / 2 ^ 56) ∧
    aboveThreeTenths.toRat = some (21617278211378384 / 2 ^ 56) ∧
    aboveThreeTenths.toRat ≠
      exactSum threeTenthsCart.Items [{ ID := 43, Price := tenth, StockQuantity := 5 }] := by
  have hsum : exactSum threeTenthsCart.Items
      [{ ID := 43, Price := tenth, StockQuantity := 5 }] =
      some (21617278211378382 / 2 ^ 56) := by
    simp only [exactSum, threeTenthsCart, tenth, F64.toRat, List.zipWith_cons_cons,
      List.zipWith_nil_left, List.foldl_cons, List.foldl_nil, Option.map_some',
      Option.some_bind]
    norm_num
  have htot : aboveThreeTenths.toRat = some (21617278211378384 / 2 ^ 56) := by
    simp only [aboveThreeTenths, F64.toRat]
    norm_num
  refine ⟨List.Forall₂.cons ⟨rfl, rfl, by decide⟩ List.Forall₂.nil, by decide, hsum, htot, ?_⟩
  rw [hsum, htot]
  norm_num

end Float64Total

end OrderService

namespace ApiGateway

/-! ## Lemmas on the rate limiter -/

theorem wrapInt64_of_inRange (x : Int) (h1 : -2 ^ 63 ≤ x) (h2 : x < 2 ^ 63) :
    OrderService.wrapInt64 x = x := by
  unfold OrderService.wrapInt64
  omega

theorem rateLimitMiddleware_noReset (s : LimiterState) (r : Request)
    (hwin : ¬ (r.now - s.lastReset > minute))
    (h0 : 0 ≤ s.requestCounts r.RemoteAddr)
    (hb : s.requestCounts r.RemoteAddr + 1 < 2 ^ 63) :
    (rateLimitMiddleware s r).1 =
      (if s.requestCounts r.RemoteAddr < 100 then Outcome.next
       else Outcome.error 429 "Rate limit exceeded") ∧
    (rateLimitMiddleware s r).2.lastReset = s.lastReset ∧
    ∀ a, (rateLimitMiddleware s r).2.requestCounts a =
      s.requestCounts a + (if r.RemoteAddr = a then 1 else 0) := by
  have hw := wrapInt64_of_inRange (s.requestCounts r.RemoteAddr + 1) (by omega) hb
  simp only [rateLimitMiddleware, if_neg hwin, hw]
  refine ⟨?_, ?_, ?_⟩
  · by_cases hc : s.requestCounts r.RemoteAddr < 100
    · have : ¬ (s.requestCounts r.RemoteAddr + 1 > 100) := by omega
      simp [hc, this]
    · have : s.requestCounts r.RemoteAddr + 1 > 100 := by omega
      simp [hc, this]
  · split <;> rfl
  · intro a
    by_cases ha : a = r.RemoteAddr
    · subst ha; split <;> simp
    · have ha2 : ¬ r.RemoteAddr = a := fun e => ha e.symm
      split <;> simp [ha, ha2]

theorem requestsFrom_cons (addr : String) (r : Request) (rest : List Request) :
    ((requestsFrom addr (r :: rest) : Nat) : Int) =
      (if r.RemoteAddr = addr then 1 else 0) + requestsFrom addr rest := by
  unfold requestsFrom
  rw [List.countP_cons]
  by_cases h : r.RemoteAddr = addr
  · simp [h]; omega
  · simp [h]

theorem serve_noReset (reqs : List Request) :
    ∀ s : LimiterState,
      (∀ r ∈ reqs, ¬ (r.now - s.lastReset > minute)) →
      (∀ a, 0 ≤ s.requestCounts a) →
      (∀ a, s.requestCounts a + reqs.length < 2 ^ 63) →
      (∀ pre r post, reqs = pre ++ r :: post →
        (serve s reqs).1[pre.length]? =
          some (if s.requestCounts r.RemoteAddr + requestsFrom r.RemoteAddr pre < 100
                then Outcome.next else Outcome.error 429 "Rate limit exceeded")) ∧
      (∀ a, (serve s reqs).2.requestCounts a = s.requestCounts a + requestsFrom a reqs) ∧
      (serve s reqs).2.lastReset = s.lastReset := by
  induction reqs with
  | nil =>
    intro s _ _ _
    refine ⟨?_, ?_, rfl⟩
    · intro pre r post h; simp at h
    · intro a; simp [serve, requestsFrom]
  | cons r0 rest ih =>
    intro s hwin h0 hb
    have hb0 := hb r0.RemoteAddr
    simp only [List.length_cons, Nat.cast_add, Nat.cast_one] at hb0
    obtain ⟨ho, hl, hc⟩ := rateLimitMiddleware_noReset s r0 (hwin r0 (by simp)) (h0 _)
      (by have := Int.ofNat_nonneg rest.length; omega)
    have hih := ih (rateLimitMiddleware s r0).2
      (by intro r hr; rw [hl]; exact hwin r (by simp [hr]))
      (by intro a; rw [hc]; have := h0 a; split <;> omega)
      (by
        intro a; rw [hc]
        have := hb a
        simp only [List.length_cons, Nat.cast_add, Nat.cast_one] at this
        split <;> omega)
    obtain ⟨ih1, ih2, ih3⟩ := hih
    refine ⟨?_, ?_, ?_⟩
    · intro pre r post hsplit
      cases pre with
      | nil =>
        simp only [List.nil_append, List.cons.injEq] at hsplit
        obtain ⟨h1, _⟩ := hsplit
        subst h1
        simp [serve, ho, requestsFrom]
      | cons p pre2 =>
        simp only [List.cons_append, List.cons.injEq] at hsplit
        obtain ⟨h1, h2⟩ := hsplit
        subst h1
        have := ih1 pre2 r post h2
        simp only [serve, List.length_cons, List.getElem?_cons_succ, this, hc,
          requestsFrom_cons]
        congr 2
        simp only [Int.add_assoc]
    · intro a
      simp only [serve, ih2, hc, requestsFrom_cons]
      omega
    · simp only [serve, ih3, hl]

/-! ## The rate limit within one window -/

/-- C11: in one reset window, taken from its beginning, the request at each position is
passed to the next handler when fewer than 100 earlier requests of the window came from
its address, and is otherwise answered 429 "Rate limit exceeded" without the next handler
being called; at the end of the window the count of every address is the number of
requests that came from it, so requests from other addresses do not change it. The
window begins either with no counts recorded (first part) or with the request that
triggers the reset (second part). Windows are shorter than the range of the Go `int`
counter. -/
theorem rate_limit_window (s : LimiterState) (reqs : List Request) :
    ((∀ a, s.requestCounts a = 0) →
      (∀ r ∈ reqs, ¬ (r.now - s.lastReset > minute)) →
      (reqs.length : Int) < 2 ^ 63 →
      (∀ pre r post, reqs = pre ++ r :: post →
        (serve s reqs).1[pre.length]? =
          some (if requestsFrom r.RemoteAddr pre < 100 then Outcome.next
                else Outcome.error 429 "Rate limit exceeded")) ∧
      (∀ a, (serve s reqs).2.requestCounts a = requestsFrom a reqs)) ∧
    (∀ r0 rest, reqs = r0 :: rest →
      r0.now - s.lastReset > minute →
      (∀ r ∈ rest, ¬ (r.now - r0.resetNow > minute)) →
      (reqs.length : Int) < 2 ^ 63 →
      (∀ pre r post, reqs = pre ++ r :: post →
        (serve s reqs).1[pre.length]? =
          some (if requestsFrom r.RemoteAddr pre < 100 then Outcome.next
                else Outcome.error 429 "Rate limit exceeded")) ∧
      (∀ a, (serve s reqs).2.requestCounts a = requestsFrom a reqs)) := by
  constructor
  · intro hstart hwin hlen
    obtain ⟨h1, h2, _⟩ := serve_noReset reqs s hwin (fun a => by rw [hstart a])
      (fun a => by rw [hstart a]; omega)
    refine ⟨?_, ?_⟩
    · intro pre r post hsplit
      rw [h1 pre r post hsplit, hstart]
      congr 1
      simp
    · intro a
      rw [h2 a, hstart]; simp
  · intro r0 rest hreqs hreset hwin hlen
    subst hreqs
    simp only [List.length_cons, Nat.cast_add, Nat.cast_one] at hlen
    have hw1 : OrderService.wrapInt64 1 = 1 := by decide
    have hstep : rateLimitMiddleware s r0 =
        (Outcome.next,
          { requestCounts := fun a => if a = r0.RemoteAddr then 1 else 0,
            lastReset := r0.resetNow }) := by
      simp [rateLimitMiddleware, hreset, hw1]
    have hcount : ∀ a, (rateLimitMiddleware s r0).2.requestCounts a =
        if a = r0.RemoteAddr then 1 else 0 := by
      intro a; rw [hstep]
    have hlast : (rateLimitMiddleware s r0).2.lastReset = r0.resetNow := by rw [hstep]
    obtain ⟨h1, h2, _⟩ := serve_noReset rest (rateLimitMiddleware s r0).2
      (by rw [hlast]; exact hwin)
      (by intro a; rw [hcount]; split <;> omega)
      (by
        intro a; rw [hcount]
        have := Int.ofNat_nonneg rest.length
        split <;> omega)
    refine ⟨?_, ?_⟩
    · intro pre r post hsplit
      cases pre with
      | nil =>
        simp only [List.nil_append, List.cons.injEq] at hsplit
        obtain ⟨hp, _⟩ := hsplit
        subst hp
        simp [serve, hstep, requestsFrom]
      | cons p pre2 =>
        simp only [List.cons_append, List.cons.injEq] at hsplit
        obtain ⟨hp, h3⟩ := hsplit
        subst hp
        have := h1 pre2 r post h3
        simp only [serve, List.length_cons, List.getElem?_cons_succ, this, hcount]
        congr 1
        have hc := requestsFrom_cons r.RemoteAddr r0 pre2
        by_cases ha : r.RemoteAddr = r0.RemoteAddr
        · rw [if_pos ha.symm] at hc
          rw [if_pos ha]
          have e : ((1 : Int) + requestsFrom r.RemoteAddr pre2 < 100) ↔
              (requestsFrom r.RemoteAddr (r0 :: pre2) < 100) := by omega
          simp only [e]
        · rw [if_neg (fun e => ha e.symm)] at hc
          rw [if_neg ha]
          have e : ((0 : Int) + requestsFrom r.RemoteAddr pre2 < 100) ↔
              (requestsFrom r.RemoteAddr (r0 :: pre2) < 100) := by omega
          simp only [e]
    · intro a
      simp only [serve]
      rw [h2 a, hcount]
      have hc := requestsFrom_cons a r0 rest
      by_cases ha : a = r0.RemoteAddr
      · rw [if_pos ha.symm] at hc
        rw [if_pos ha]
        omega
      · rw [if_neg (fun e => ha e.symm)] at hc
        rw [if_neg ha]
        omega

/-- Witness of C11: in a window of 100 requests from one address, one from another and
one more from the first, the request of the other address is passed and the 101st request
of the first address is answered 429. -/
theorem rate_limit_window_witness :
    (serve (initialState 0) window102).1[100]? = some Outcome.next ∧
    (serve (initialState 0) window102).1[101]? =
      some (Outcome.error 429 "Rate limit exceeded") := by
  have h := (rate_limit_window (initialState 0) window102).1 (fun _ => rfl) (by decide)
    (by decide)
  constructor
  · have := h.1 (List.replicate 100 (requestFrom "10.0.0.1")) (requestFrom "10.0.0.2")
      [requestFrom "10.0.0.1"] rfl
    simpa [requestsFrom, requestFrom] using this
  · have := h.1 (List.replicate 100 (requestFrom "10.0.0.1") ++ [requestFrom "10.0.0.2"])
      (requestFrom "10.0.0.1") [] (by simp [window102])
    simpa [requestsFrom, requestFrom, List.countP_replicate] using this

end ApiGateway
